import Mathlib

/-!
Verification development for the Optimized Timetable System scheduling engine.

The JavaScript source is shallowly embedded in Lean 4:
  * `FitnessCalculator` (fitnessCalculator.js) becomes pure functions over
    `Gene` lists; JS numbers are modelled by `ℚ` (all engine arithmetic on the
    default data is exact integer arithmetic), counts by `Nat`/`Int`.
  * `Math.random()` is modelled by an ambient draw sequence `f : Nat → ℚ`
    together with a cursor; the JS contract is `0 ≤ f n < 1`.
  * JS `Map`/`Set` duplicate detection is modelled by association/seen lists
    with tuple keys (the JS string keys `a-b-c` are injective on the engine's
    data because days come from a fixed enum and slot numbers are numeric).
  * fallible lookups (`Map.get`, array indexing that JS would crash on and the
    surrounding try/catch turns into `null`) are modelled with `Option`.
-/

namespace Timetable

/-- JS `x || d` on an optional numeric field: `undefined` and `0` both fall
back to the default. -/
def jsNumOr (x : Option ℚ) (d : ℚ) : ℚ :=
  match x with
  | none => d
  | some v => if v = 0 then d else v

/-- JS `x || d` on an optional integer config field (`0` is falsy). -/
def jsNatOr (x : Option Nat) (d : Nat) : Nat :=
  match x with
  | none => d
  | some v => if v = 0 then d else v

/-- Lexicographic comparison of character lists by code point (the order JS
`<` uses on the engine's ASCII `"HH:MM"` strings). -/
def charListLt : List Char → List Char → Bool
  | _, [] => false
  | [], _ :: _ => true
  | a :: as, b :: bs =>
    if a.toNat < b.toNat then true
    else if b.toNat < a.toNat then false
    else charListLt as bs

def strLt (a b : String) : Bool := charListLt a.data b.data

/-- JS string `<=` (lexicographic). -/
def strLe (a b : String) : Bool := !(strLt b a)

def startsWithChars : List Char → List Char → Bool
  | [], _ => true
  | _ :: _, [] => false
  | a :: as, b :: bs => a == b && startsWithChars as bs

def containsChars (sub : List Char) : List Char → Bool
  | [] => startsWithChars sub []
  | b :: bs => startsWithChars sub (b :: bs) || containsChars sub bs

/-- JS `String.prototype.includes` (substring test on the character data). -/
def jsIncludes (s sub : String) : Bool := containsChars sub.data s.data

def charToLower (c : Char) : Char :=
  if 65 ≤ c.toNat ∧ c.toNat ≤ 90 then Char.ofNat (c.toNat + 32) else c

/-- JS `toLowerCase` (ASCII range; the engine's day names are ASCII). -/
def jsToLower (s : String) : String := ⟨s.data.map charToLower⟩

/-- JS `Math.floor(r * len)`, the uniform index draw used throughout. -/
def jsIndex (r : ℚ) (len : Nat) : Nat := (⌊r * (len : ℚ)⌋).toNat

/-- The contract of `Math.random`: every draw lies in `[0, 1)`. -/
def ValidRand (f : Nat → ℚ) : Prop := ∀ n, 0 ≤ f n ∧ f n < 1

/-! ## Input snapshot data model (Mongoose documents, used fields only) -/

structure TimeRange where
  startTime : String
  endTime : String
  deriving DecidableEq

structure FacultyAvailability where
  monday : List TimeRange
  tuesday : List TimeRange
  wednesday : List TimeRange
  thursday : List TimeRange
  friday : List TimeRange
  saturday : List TimeRange
  deriving DecidableEq

structure FacultyWorkload where
  maxHoursPerWeek : ℚ
  minHoursPerWeek : ℚ
  deriving DecidableEq

/-- Faculty document.  `subjects` keeps only the course ids: `courseName` and
`canTeach` are never read by the engine (the eligibility filter tests only
`s.courseId` and `isActive`). -/
structure Faculty where
  fid : Nat
  name : String
  subjects : List Nat
  availability : Option FacultyAvailability
  workload : Option FacultyWorkload
  isActive : Bool
  deriving DecidableEq

structure CourseHours where
  hoursPerWeek : ℚ
  sessionDuration : ℚ
  deriving DecidableEq

structure LabRoomReq where
  specificLabType : Option String
  deriving DecidableEq

structure RoomRequirements where
  lab : Option LabRoomReq
  deriving DecidableEq

structure CourseSection where
  sectionName : String
  strength : Nat
  deriving DecidableEq

structure Course where
  cid : Nat
  courseCode : String
  courseName : String
  sections : List CourseSection
  theoryHours : CourseHours
  labHours : CourseHours
  roomRequirements : Option RoomRequirements
  isElective : Bool
  electiveGroup : Option String
  deriving DecidableEq

structure Room where
  rid : Nat
  roomNumber : String
  capacity : Nat
  rtype : String
  labType : Option String
  isActive : Bool
  deriving DecidableEq

structure TimeSlot where
  day : String
  slotNumber : Nat
  startTime : String
  endTime : String
  deriving DecidableEq

/-- Constraint document (fields read by the checker and the catalog). -/
structure Constraint where
  name : String
  ctype : String
  category : String
  description : String
  weight : ℚ
  isActive : Bool
  deriving DecidableEq

/-! ## Chromosome / gene data shapes -/

structure GeneSlot where
  day : String
  slotNumber : Nat
  startTime : String
  endTime : String
  deriving DecidableEq

structure Gene where
  courseId : Nat
  courseCode : String
  courseName : String
  -- JS field `section` (a Lean keyword, hence renamed)
  sectionName : String
  sessionType : String
  timeSlot : GeneSlot
  facultyId : Nat
  facultyName : String
  roomId : Nat
  roomNumber : String
  duration : ℚ
  consecutiveSlots : Nat
  deriving DecidableEq

/-- A hard-constraint entry of the detail breakdown:
`{type, count, penalty}`. -/
structure HardDetail where
  dtype : String
  count : Nat
  penalty : ℚ
  deriving DecidableEq

/-- A soft-constraint entry of the detail breakdown.  The three shapes the
source pushes: plain `{type, count, penalty}` (gap totals may be negative, so
the count is an `Int`), the workload `{exceeded, underUtilized, penalty}`
entry, and the `{variance, penalty}` workload-balance entry. -/
inductive SoftDetail where
  | simple (dtype : String) (count : Int) (penalty : ℚ)
  | imbalance (exceeded underUtilized : Nat) (penalty : ℚ)
  | balance (variance : ℚ) (penalty : ℚ)
  deriving DecidableEq

structure Details where
  hardConstraints : List HardDetail
  softConstraints : List SoftDetail
  deriving DecidableEq

structure EvalResult where
  fitness : ℚ
  hardViolations : Nat
  softViolations : Int
  details : Details
  deriving DecidableEq

structure Chromosome where
  genes : List Gene
  fitness : ℚ
  hardViolations : Nat
  softViolations : Int
  details : Details
  deriving DecidableEq

/-! ## FitnessCalculator weights (constructor, with caller overrides) -/

structure Weights where
  facultyDoubleBooking : ℚ
  roomDoubleBooking : ℚ
  sectionConflict : ℚ
  facultyUnavailable : ℚ
  labContinuity : ℚ
  roomCapacity : ℚ
  workloadExceeded : ℚ
  workloadUnderUtilized : ℚ
  studentGaps : ℚ
  facultyGaps : ℚ
  workloadBalance : ℚ
  preferenceMatch : ℚ
  consecutiveHours : ℚ
  dailyDistribution : ℚ
  deriving DecidableEq

/-- The caller-supplied `weights` object (every field optional). -/
structure WeightsConfig where
  facultyDoubleBooking : Option ℚ := none
  roomDoubleBooking : Option ℚ := none
  sectionConflict : Option ℚ := none
  facultyUnavailable : Option ℚ := none
  labContinuity : Option ℚ := none
  roomCapacity : Option ℚ := none
  workloadExceeded : Option ℚ := none
  workloadUnderUtilized : Option ℚ := none
  studentGaps : Option ℚ := none
  facultyGaps : Option ℚ := none
  workloadBalance : Option ℚ := none
  preferenceMatch : Option ℚ := none
  consecutiveHours : Option ℚ := none
  dailyDistribution : Option ℚ := none
  deriving DecidableEq

/-- `FitnessCalculator` constructor: each weight is
`weights.field || default`. -/
def mkWeights (cfg : WeightsConfig) : Weights where
  facultyDoubleBooking := jsNumOr cfg.facultyDoubleBooking 1000
  roomDoubleBooking := jsNumOr cfg.roomDoubleBooking 1000
  sectionConflict := jsNumOr cfg.sectionConflict 1000
  facultyUnavailable := jsNumOr cfg.facultyUnavailable 900
  labContinuity := jsNumOr cfg.labContinuity 800
  roomCapacity := jsNumOr cfg.roomCapacity 800
  workloadExceeded := jsNumOr cfg.workloadExceeded 100
  workloadUnderUtilized := jsNumOr cfg.workloadUnderUtilized 80
  studentGaps := jsNumOr cfg.studentGaps 50
  facultyGaps := jsNumOr cfg.facultyGaps 40
  workloadBalance := jsNumOr cfg.workloadBalance 60
  preferenceMatch := jsNumOr cfg.preferenceMatch 30
  consecutiveHours := jsNumOr cfg.consecutiveHours 50
  dailyDistribution := jsNumOr cfg.dailyDistribution 40

/-! ## Duplicate counting (the `Map`-based double-booking scans) -/

/-- The loop body shared by `checkFacultyConflicts` / `checkRoomConflicts` /
`checkSectionConflicts`: walk the keys, count every key already seen, then
record it. -/
def dupCountAux {κ : Type} [DecidableEq κ] (seen : List κ) : List κ → Nat
  | [] => 0
  | k :: ks => (if k ∈ seen then 1 else 0) + dupCountAux (k :: seen) ks

def dupCount {κ : Type} [DecidableEq κ] (l : List κ) : Nat := dupCountAux [] l

def geneFacultyKey (g : Gene) : Nat × String × Nat :=
  (g.facultyId, g.timeSlot.day, g.timeSlot.slotNumber)

def geneRoomKey (g : Gene) : Nat × String × Nat :=
  (g.roomId, g.timeSlot.day, g.timeSlot.slotNumber)

def geneSectionKey (g : Gene) : String × String × Nat :=
  (g.sectionName, g.timeSlot.day, g.timeSlot.slotNumber)

/-- `checkFacultyConflicts`: count duplicate `(facultyId, day, slotNumber)`
keys (the source returns `{count, conflicts}`; only `count` is consumed). -/
def checkFacultyConflicts (genes : List Gene) : Nat :=
  dupCount (genes.map geneFacultyKey)

/-- `checkRoomConflicts`: duplicate `(roomId, day, slotNumber)` keys. -/
def checkRoomConflicts (genes : List Gene) : Nat :=
  dupCount (genes.map geneRoomKey)

/-- `checkSectionConflicts`: duplicate `(section, day, slotNumber)` keys. -/
def checkSectionConflicts (genes : List Gene) : Nat :=
  dupCount (genes.map geneSectionKey)

/-! ## Faculty availability -/

/-- JS `facultyMember.availability[day]` for a lower-cased day string; an
unknown key yields `undefined` (`none`). -/
def availOn (av : FacultyAvailability) (day : String) : Option (List TimeRange) :=
  if day = "monday" then some av.monday
  else if day = "tuesday" then some av.tuesday
  else if day = "wednesday" then some av.wednesday
  else if day = "thursday" then some av.thursday
  else if day = "friday" then some av.friday
  else if day = "saturday" then some av.saturday
  else none

/-- The faculty map `new Map(faculty.map(f => [f._id, f]))` lookup. -/
def findFaculty (faculty : List Faculty) (fid : Nat) : Option Faculty :=
  faculty.find? (fun f => f.fid = fid)

/-- One gene's contribution to `checkFacultyAvailability`: unknown faculty or
absent `availability` are skipped; a missing/empty day list counts one; a gene
whose `[startTime, endTime]` fits inside no window counts one. -/
def availabilityMiss (faculty : List Faculty) (g : Gene) : Nat :=
  match findFaculty faculty g.facultyId with
  | none => 0
  | some f =>
    match f.availability with
    | none => 0
    | some av =>
      match availOn av (jsToLower g.timeSlot.day) with
      | none => 1
      | some dayAvailability =>
        if dayAvailability.isEmpty then 1
        else if dayAvailability.any (fun slot =>
            strLe slot.startTime g.timeSlot.startTime &&
            strLe g.timeSlot.endTime slot.endTime) then 0
        else 1

/-- `checkFacultyAvailability`. -/
def checkFacultyAvailability (genes : List Gene) (faculty : List Faculty) : Nat :=
  (genes.map (availabilityMiss faculty)).sum

/-! ## Lab continuity (the source is a stub: `count += 0`) -/

/-- `checkLabContinuity`, exactly as in the source: filter the lab genes and,
for each one with `consecutiveSlots > 1`, add `0` ("Placeholder - implement
actual continuity check"). -/
def checkLabContinuity (genes : List Gene) : Nat :=
  (genes.filter (fun g => g.sessionType = "lab")).foldl
    (fun count session => if session.consecutiveSlots > 1 then count + 0 else count) 0

/-! ## Room capacity -/

def findRoom (rooms : List Room) (rid : Nat) : Option Room :=
  rooms.find? (fun r => r.rid = rid)

def findCourse (courses : List Course) (cid : Nat) : Option Course :=
  courses.find? (fun c => c.cid = cid)

/-- One gene's contribution to `checkRoomCapacity`: unknown room or course is
skipped; otherwise find the gene's section on the course and count one when
`room.capacity < section.strength`. -/
def capacityMiss (courses : List Course) (rooms : List Room) (g : Gene) : Nat :=
  match findRoom rooms g.roomId with
  | none => 0
  | some room =>
    match findCourse courses g.courseId with
    | none => 0
    | some course =>
      match course.sections.find? (fun s => s.sectionName = g.sectionName) with
      | none => 0
      | some s => if room.capacity < s.strength then 1 else 0

/-- `checkRoomCapacity`. -/
def checkRoomCapacity (genes : List Gene) (courses : List Course)
    (rooms : List Room) : Nat :=
  (genes.map (capacityMiss courses rooms)).sum

/-! ## Workload constraints and balance -/

/-- Hours assigned to one faculty id: the `workload` map entry built by
summing `gene.duration` over the faculty's genes (`get(id) || 0`). -/
def assignedHours (genes : List Gene) (fid : Nat) : ℚ :=
  ((genes.filter (fun g => g.facultyId = fid)).map (fun g => g.duration)).sum

/-- `checkWorkloadConstraints`: per faculty member, over-max counts toward
`exceeded`, else under-min toward `underUtilized` (defaults 18 / 12 via
`workload?.x || d`). -/
def checkWorkloadConstraints (genes : List Gene) (faculty : List Faculty) :
    Nat × Nat :=
  faculty.foldl
    (fun p f =>
      let assigned := assignedHours genes f.fid
      let mx := jsNumOr (f.workload.map (fun w => w.maxHoursPerWeek)) 18
      let mn := jsNumOr (f.workload.map (fun w => w.minHoursPerWeek)) 12
      if assigned > mx then (p.1 + 1, p.2)
      else if assigned < mn then (p.1, p.2 + 1)
      else p)
    (0, 0)

/-- The distinct faculty ids appearing in the gene list (the keys of the JS
workload `Map`; only the multiset of values matters downstream). -/
def workloadIds (genes : List Gene) : List Nat :=
  (genes.map (fun g => g.facultyId)).dedup

/-- `evaluateWorkloadBalance`: population variance of the per-faculty assigned
hours; the imbalance is `Math.floor` of the standard deviation, i.e. the
integer square root of the variance's floor.  Returns `(imbalance, variance)`;
`({imbalance: 0, variance: 0})` for an empty map. -/
def evaluateWorkloadBalance (genes : List Gene) : Nat × ℚ :=
  let workloads := (workloadIds genes).map (assignedHours genes)
  if workloads.isEmpty then (0, 0)
  else
    let n : ℚ := workloads.length
    let mean := workloads.sum / n
    let variance := (workloads.map (fun w => (w - mean) ^ 2)).sum / n
    (Nat.sqrt (⌊variance⌋).toNat, variance)

/-! ## Gap counting and consecutive hours -/

def insertSorted (x : Nat) : List Nat → List Nat
  | [] => [x]
  | y :: ys => if x ≤ y then x :: y :: ys else y :: insertSorted x ys

/-- Ascending numeric sort (JS `slots.sort((a, b) => a - b)`; on plain
numbers the result is the unique sorted permutation). -/
def sortSlots (slots : List Nat) : List Nat :=
  slots.foldr insertSorted []

/-- Sum of `slots[i] - slots[i-1] - 1` over consecutive pairs of an (already
sorted) slot list.  A duplicate slot contributes `-1`, exactly as in JS. -/
def gapSum : List Nat → Int
  | [] => 0
  | [_] => 0
  | a :: b :: rest => ((b : Int) - (a : Int) - 1) + gapSum (b :: rest)

/-- `calculateStudentGaps`: group slot numbers by `(section, day)`, sort each
group ascending, total the inter-class gaps. -/
def calculateStudentGaps (genes : List Gene) : Int :=
  let keys := (genes.map (fun g => (g.sectionName, g.timeSlot.day))).dedup
  (keys.map (fun k =>
    gapSum (sortSlots ((genes.filter (fun g =>
      g.sectionName = k.1 && g.timeSlot.day = k.2)).map
        (fun g => g.timeSlot.slotNumber))))).sum

/-- `calculateFacultyGaps`: the same grouped by `(facultyId, day)`. -/
def calculateFacultyGaps (genes : List Gene) : Int :=
  let keys := (genes.map (fun g => (g.facultyId, g.timeSlot.day))).dedup
  (keys.map (fun k =>
    gapSum (sortSlots ((genes.filter (fun g =>
      g.facultyId = k.1 && g.timeSlot.day = k.2)).map
        (fun g => g.timeSlot.slotNumber))))).sum

/-- The run walk of `checkConsecutiveHours`: `prev` is the previous slot,
`run` the current consecutive-run length; a successor slot extends the run and
counts one violation whenever the run length passes 3. -/
def consecWalk (prev run : Nat) : List Nat → Nat
  | [] => 0
  | s :: rest =>
    if s = prev + 1 then
      (if run + 1 > 3 then 1 else 0) + consecWalk s (run + 1) rest
    else
      consecWalk s 1 rest

def consecCount (slots : List Nat) : Nat :=
  match slots with
  | [] => 0
  | s :: rest => consecWalk s 1 rest

/-- `checkConsecutiveHours` (maxConsecutive = 3), grouped by
`(facultyId, day)`. -/
def checkConsecutiveHours (genes : List Gene) : Nat :=
  let keys := (genes.map (fun g => (g.facultyId, g.timeSlot.day))).dedup
  (keys.map (fun k =>
    consecCount (sortSlots ((genes.filter (fun g =>
      g.facultyId = k.1 && g.timeSlot.day = k.2)).map
        (fun g => g.timeSlot.slotNumber))))).sum

/-! ## FitnessCalculator.calculate -/

/-- `details.hardConstraints.push({type, count, penalty})`, guarded by
`count > 0` as in the source. -/
def pushHard (l : List HardDetail) (t : String) (c : Nat) (pen : ℚ) :
    List HardDetail :=
  if c > 0 then l ++ [⟨t, c, pen⟩] else l

/-- A guarded push of a plain soft entry (`count > 0`). -/
def pushSoft (l : List SoftDetail) (t : String) (c : Int) (pen : ℚ) :
    List SoftDetail :=
  if c > 0 then l ++ [.simple t c pen] else l

/-- The `workload_imbalance` push, guarded by `exceeded + underUtilized > 0`. -/
def pushImbalance (l : List SoftDetail) (ex un : Nat) (pen : ℚ) :
    List SoftDetail :=
  if ex + un > 0 then l ++ [.imbalance ex un pen] else l

/-- The `workload_balance` push, guarded by `imbalance > 0`; the entry records
the variance and the penalty (the imbalance itself is recoverable as the
integer square root of the variance's floor). -/
def pushBalance (l : List SoftDetail) (imb : Nat) (v : ℚ) (pen : ℚ) :
    List SoftDetail :=
  if imb > 0 then l ++ [.balance v pen] else l

/-- `FitnessCalculator.calculate`: run every check, subtract
`count × weight` from the 1000 baseline for each, floor at 0, and report the
violation counts and the per-category detail breakdown.  The `constraints`
argument is accepted and ignored, as in the source. -/
def calculate (w : Weights) (chromosome : Chromosome) (courses : List Course)
    (faculty : List Faculty) (rooms : List Room)
    (_constraints : List Constraint) : EvalResult :=
  let genes := chromosome.genes
  let fc := checkFacultyConflicts genes
  let rc := checkRoomConflicts genes
  let sc := checkSectionConflicts genes
  let un := checkFacultyAvailability genes faculty
  let lc := checkLabContinuity genes
  let cap := checkRoomCapacity genes courses rooms
  let wl := checkWorkloadConstraints genes faculty
  let sg := calculateStudentGaps genes
  let fg := calculateFacultyGaps genes
  let wb := evaluateWorkloadBalance genes
  let ch := checkConsecutiveHours genes
  let fitness : ℚ := 1000
    - fc * w.facultyDoubleBooking
    - rc * w.roomDoubleBooking
    - sc * w.sectionConflict
    - un * w.facultyUnavailable
    - lc * w.labContinuity
    - cap * w.roomCapacity
    - wl.1 * w.workloadExceeded
    - wl.2 * w.workloadUnderUtilized
    - sg * w.studentGaps
    - fg * w.facultyGaps
    - wb.1 * w.workloadBalance
    - ch * w.consecutiveHours
  let hardDetails :=
    pushHard (pushHard (pushHard (pushHard (pushHard (pushHard []
      "faculty_double_booking" fc (fc * w.facultyDoubleBooking))
      "room_double_booking" rc (rc * w.roomDoubleBooking))
      "section_conflict" sc (sc * w.sectionConflict))
      "faculty_unavailable" un (un * w.facultyUnavailable))
      "lab_continuity_broken" lc (lc * w.labContinuity))
      "room_capacity_exceeded" cap (cap * w.roomCapacity)
  let softDetails :=
    pushSoft (pushBalance (pushSoft (pushSoft (pushImbalance []
      wl.1 wl.2 (wl.1 * w.workloadExceeded + wl.2 * w.workloadUnderUtilized))
      "student_gaps" sg (sg * w.studentGaps))
      "faculty_gaps" fg (fg * w.facultyGaps))
      wb.1 wb.2 (wb.1 * w.workloadBalance))
      "excessive_consecutive_hours" ch (ch * w.consecutiveHours)
  { fitness := max 0 fitness
    hardViolations := fc + rc + sc + un + lc + cap
    softViolations := (wl.1 : Int) + wl.2 + sg + fg + wb.1 + ch
    details := ⟨hardDetails, softDetails⟩ }

/-! ## The claimed fitness identity (round-trip through the weight table) -/

/-- The weight-table entry for a detail type tag. -/
def weightFor (w : Weights) (t : String) : ℚ :=
  if t = "faculty_double_booking" then w.facultyDoubleBooking
  else if t = "room_double_booking" then w.roomDoubleBooking
  else if t = "section_conflict" then w.sectionConflict
  else if t = "faculty_unavailable" then w.facultyUnavailable
  else if t = "lab_continuity_broken" then w.labContinuity
  else if t = "room_capacity_exceeded" then w.roomCapacity
  else if t = "student_gaps" then w.studentGaps
  else if t = "faculty_gaps" then w.facultyGaps
  else if t = "excessive_consecutive_hours" then w.consecutiveHours
  else 0

/-- `count_i × weight_i` recomputed from a soft detail entry and the weight
table (for the balance entry the count is the floor of the standard deviation,
recovered from the recorded variance). -/
def softDetailPenalty (w : Weights) : SoftDetail → ℚ
  | .simple t c _ => c * weightFor w t
  | .imbalance ex un _ => ex * w.workloadExceeded + un * w.workloadUnderUtilized
  | .balance v _ => (Nat.sqrt (⌊v⌋).toNat : ℚ) * w.workloadBalance

def hardRT (w : Weights) (l : List HardDetail) : ℚ :=
  (l.map (fun e => (e.count : ℚ) * weightFor w e.dtype)).sum

def softRT (w : Weights) (l : List SoftDetail) : ℚ :=
  (l.map (softDetailPenalty w)).sum

/-- `Σ count_i × weight_i` over the whole detail breakdown, recomputed from
the reported counts and the weight table. -/
def detailsPenalty (w : Weights) (d : Details) : ℚ :=
  hardRT w d.hardConstraints + softRT w d.softConstraints

@[simp] lemma hardRT_nil (w : Weights) : hardRT w [] = 0 := rfl

@[simp] lemma softRT_nil (w : Weights) : softRT w [] = 0 := rfl

lemma hardRT_push (w : Weights) (l : List HardDetail) (t : String) (c : Nat)
    (pen : ℚ) : hardRT w (pushHard l t c pen) = hardRT w l + c * weightFor w t := by
  unfold pushHard hardRT
  by_cases h : c > 0
  · simp [h]
  · have : c = 0 := by omega
    simp [h, this]

lemma softRT_push (w : Weights) (l : List SoftDetail) (t : String) (c : Int)
    (pen : ℚ) (h : (0 : Int) ≤ c) :
    softRT w (pushSoft l t c pen) = softRT w l + c * weightFor w t := by
  unfold pushSoft softRT
  by_cases hc : c > 0
  · simp [hc, softDetailPenalty]
  · have : c = 0 := by omega
    simp [hc, this]

lemma softRT_imbalance (w : Weights) (l : List SoftDetail) (ex un : Nat)
    (pen : ℚ) : softRT w (pushImbalance l ex un pen)
      = softRT w l + (ex * w.workloadExceeded + un * w.workloadUnderUtilized) := by
  unfold pushImbalance softRT
  by_cases h : ex + un > 0
  · simp [h, softDetailPenalty]
  · have hex : ex = 0 := by omega
    have hun : un = 0 := by omega
    simp [h, hex, hun]

lemma softRT_balance (w : Weights) (l : List SoftDetail) (imb : Nat) (v : ℚ)
    (pen : ℚ) (h : imb = Nat.sqrt (⌊v⌋).toNat) :
    softRT w (pushBalance l imb v pen)
      = softRT w l + (imb : ℚ) * w.workloadBalance := by
  subst h
  unfold pushBalance softRT
  by_cases hp : Nat.sqrt (⌊v⌋).toNat > 0
  · simp [hp, softDetailPenalty]
  · have h0 : Nat.sqrt (⌊v⌋).toNat = 0 := by omega
    simp [hp, h0]

/-- The imbalance component of `evaluateWorkloadBalance` is the floor-sqrt of
the variance component it reports. -/
lemma evaluateWorkloadBalance_sqrt (genes : List Gene) :
    (evaluateWorkloadBalance genes).1
      = Nat.sqrt (⌊(evaluateWorkloadBalance genes).2⌋).toNat := by
  simp only [evaluateWorkloadBalance]
  split <;> simp

@[simp] lemma weightFor_fdb (w : Weights) :
    weightFor w "faculty_double_booking" = w.facultyDoubleBooking := rfl

@[simp] lemma weightFor_rdb (w : Weights) :
    weightFor w "room_double_booking" = w.roomDoubleBooking := rfl

@[simp] lemma weightFor_sc (w : Weights) :
    weightFor w "section_conflict" = w.sectionConflict := rfl

@[simp] lemma weightFor_fu (w : Weights) :
    weightFor w "faculty_unavailable" = w.facultyUnavailable := rfl

@[simp] lemma weightFor_lc (w : Weights) :
    weightFor w "lab_continuity_broken" = w.labContinuity := rfl

@[simp] lemma weightFor_cap (w : Weights) :
    weightFor w "room_capacity_exceeded" = w.roomCapacity := rfl

@[simp] lemma weightFor_sg (w : Weights) :
    weightFor w "student_gaps" = w.studentGaps := rfl

@[simp] lemma weightFor_fg (w : Weights) :
    weightFor w "faculty_gaps" = w.facultyGaps := rfl

@[simp] lemma weightFor_ch (w : Weights) :
    weightFor w "excessive_consecutive_hours" = w.consecutiveHours := rfl

/-- C1 (amended).  For every chromosome whose student-gap and faculty-gap
totals are nonnegative (the source's gap formula goes negative exactly when a
(section, day) or (faculty, day) group repeats a slot number), and for every
(possibly caller-overridden) weight table, the fitness returned by
`FitnessCalculator.calculate` equals `max(0, 1000 − Σ(count_i × weight_i))`,
where the counts are the ones reported in the returned details breakdown and
the weights are the corresponding entries of the weight table. -/
theorem c1_fitness_round_trip (cfg : WeightsConfig) (chromosome : Chromosome)
    (courses : List Course) (faculty : List Faculty) (rooms : List Room)
    (cons : List Constraint)
    (hsg : 0 ≤ calculateStudentGaps chromosome.genes)
    (hfg : 0 ≤ calculateFacultyGaps chromosome.genes) :
    (calculate (mkWeights cfg) chromosome courses faculty rooms cons).fitness
      = max 0 (1000 - detailsPenalty (mkWeights cfg)
          (calculate (mkWeights cfg) chromosome courses faculty rooms
            cons).details) := by
  set w := mkWeights cfg with hw
  simp only [calculate, detailsPenalty]
  rw [hardRT_push, hardRT_push, hardRT_push, hardRT_push, hardRT_push,
    hardRT_push, hardRT_nil]
  rw [softRT_push _ _ _ _ _ (Int.natCast_nonneg _),
    softRT_balance _ _ _ _ _ (evaluateWorkloadBalance_sqrt _),
    softRT_push _ _ _ _ _ hfg, softRT_push _ _ _ _ _ hsg,
    softRT_imbalance, softRT_nil]
  simp only [weightFor_fdb, weightFor_rdb, weightFor_sc, weightFor_fu,
    weightFor_lc, weightFor_cap, weightFor_sg, weightFor_fg, weightFor_ch]
  congr 1
  push_cast
  ring

/-! ## Duplicate counts are "m − 1 per key" (C6) -/

/-- The number of occurrences of a key in a key list. -/
def keyOccurrences {κ : Type} [DecidableEq κ] (l : List κ) (k : κ) : Nat :=
  (l.filter (fun x => decide (x = k))).length

lemma dupCountAux_add_card {κ : Type} [DecidableEq κ] (l : List κ) :
    ∀ seen : List κ,
      dupCountAux seen l
        + ((l.filter (fun k => decide (k ∉ seen))).toFinset).card = l.length := by
  induction l with
  | nil => intro seen; simp [dupCountAux]
  | cons k ks ih =>
    intro seen
    by_cases hk : k ∈ seen
    · have h1 : dupCountAux seen (k :: ks) = 1 + dupCountAux (k :: seen) ks := by
        simp [dupCountAux, hk]
      have h2 : (k :: ks).filter (fun x => decide (x ∉ seen))
          = ks.filter (fun x => decide (x ∉ seen)) :=
        List.filter_cons_of_neg (by simp [hk])
      have hcongr : ks.filter (fun x => decide (x ∉ seen))
          = ks.filter (fun x => decide (x ∉ k :: seen)) := by
        apply List.filter_congr
        intro x _
        by_cases hx : x ∈ seen
        · simp [hx]
        · have : x ≠ k := fun h => hx (h ▸ hk)
          simp [hx, this]
      rw [h1, h2, hcongr, List.length_cons]
      have := ih (k :: seen)
      omega
    · have h1 : dupCountAux seen (k :: ks) = dupCountAux (k :: seen) ks := by
        simp [dupCountAux, hk]
      have h2 : (k :: ks).filter (fun x => decide (x ∉ seen))
          = k :: ks.filter (fun x => decide (x ∉ seen)) :=
        List.filter_cons_of_pos (by simp [hk])
      have hins : (k :: ks.filter (fun x => decide (x ∉ seen))).toFinset
          = insert k (ks.filter (fun x => decide (x ∉ k :: seen))).toFinset := by
        rw [List.toFinset_cons]
        apply Finset.ext
        intro x
        simp only [Finset.mem_insert, List.mem_toFinset, List.mem_filter,
          decide_eq_true_eq, List.mem_cons, not_or]
        constructor
        · rintro (rfl | ⟨hxks, hxs⟩)
          · exact Or.inl rfl
          · by_cases hxk : x = k
            · exact Or.inl hxk
            · exact Or.inr ⟨hxks, hxk, hxs⟩
        · rintro (rfl | ⟨hxks, _, hxs⟩)
          · exact Or.inl rfl
          · exact Or.inr ⟨hxks, hxs⟩
      have hnot : k ∉ (ks.filter (fun x => decide (x ∉ k :: seen))).toFinset := by
        simp [List.mem_filter]
      rw [h1, h2, hins, Finset.card_insert_of_not_mem hnot, List.length_cons]
      have := ih (k :: seen)
      omega

lemma dupCount_add_card {κ : Type} [DecidableEq κ] (l : List κ) :
    dupCount l + l.toFinset.card = l.length := by
  have h := dupCountAux_add_card l []
  have hfilter : l.filter (fun k => decide (k ∉ ([] : List κ))) = l := by
    apply List.filter_eq_self.mpr
    intro x _
    simp
  rw [hfilter] at h
  exact h

lemma keyOccurrences_eq_count {κ : Type} [DecidableEq κ] (l : List κ) (k : κ) :
    keyOccurrences l k = l.count k := by
  unfold keyOccurrences
  rw [List.count_eq_countP, List.countP_eq_length_filter]
  apply congrArg List.length
  apply List.filter_congr
  intro x _
  rw [beq_eq_decide]
  exact decide_eq_decide.mpr Iff.rfl

/-- Every key with `m` occurrences contributes exactly `m − 1` to the
duplicate count, and the count is the sum of those contributions. -/
lemma dupCount_eq_sum_sub_one {κ : Type} [DecidableEq κ] (l : List κ) :
    dupCount l = Finset.sum l.toFinset (fun k => keyOccurrences l k - 1) := by
  have hsum : Finset.sum l.toFinset (fun k => l.count k) = l.length := by
    have h := Multiset.toFinset_sum_count_eq (l : Multiset κ)
    simpa using h
  have hone : Finset.sum l.toFinset (fun k => (keyOccurrences l k - 1) + 1)
      = Finset.sum l.toFinset (fun k => l.count k) := by
    apply Finset.sum_congr rfl
    intro k hk
    rw [keyOccurrences_eq_count]
    have : 0 < l.count k := List.count_pos_iff.mpr (List.mem_toFinset.mp hk)
    omega
  have hsplit : Finset.sum l.toFinset (fun k => (keyOccurrences l k - 1) + 1)
      = Finset.sum l.toFinset (fun k => keyOccurrences l k - 1)
        + Finset.sum l.toFinset (fun _ => 1) := Finset.sum_add_distrib
  have hcard : Finset.sum l.toFinset (fun _ : κ => 1) = l.toFinset.card := by
    simp
  have := dupCount_add_card l
  omega

/-- C6.  In the fitness evaluation, each of the three double-booking counts
equals, key by key, the number of duplicates beyond the first: if `m` genes
share a key then that key contributes `m − 1`, and the total is the sum over
the distinct keys. -/
theorem c6_duplicate_counts (genes : List Gene) :
    checkFacultyConflicts genes
        = Finset.sum (genes.map geneFacultyKey).toFinset
            (fun k => keyOccurrences (genes.map geneFacultyKey) k - 1)
      ∧ checkRoomConflicts genes
        = Finset.sum (genes.map geneRoomKey).toFinset
            (fun k => keyOccurrences (genes.map geneRoomKey) k - 1)
      ∧ checkSectionConflicts genes
        = Finset.sum (genes.map geneSectionKey).toFinset
            (fun k => keyOccurrences (genes.map geneSectionKey) k - 1) :=
  ⟨dupCount_eq_sum_sub_one _, dupCount_eq_sum_sub_one _,
    dupCount_eq_sum_sub_one _⟩

/-! ## The lab-continuity check is a stub (C2) -/

/-- C2 (the code, not the claim).  The lab-continuity check of the fitness
path reports zero violations for every chromosome — including a lone 2-slot
lab gene, which the specification says must contribute at least one
violation.  The source loop adds `0` per multi-slot lab gene ("Placeholder -
implement actual continuity check"). -/
theorem c2_lab_continuity_stub (genes : List Gene) :
    checkLabContinuity genes = 0 := by
  unfold checkLabContinuity
  generalize genes.filter (fun g => g.sessionType = "lab") = labs
  induction labs with
  | nil => rfl
  | cons s rest ih =>
    simp only [List.foldl_cons]
    split
    · exact ih
    · exact ih

/-! ## Schedule entries, the detect-conflicts fast pass (Schedule.js) -/

/-- A schedule entry (`scheduleEntrySchema`), the persisted image of a gene.
JS field `section` is again rendered as `sectionName`. -/
structure Entry where
  day : String
  slotNumber : Nat
  startTime : String
  endTime : String
  course : Nat
  courseCode : String
  sessionType : String
  sectionName : String
  faculty : Nat
  facultyName : String
  room : Nat
  roomNumber : String
  duration : ℚ
  consecutiveSlots : Nat
  deriving DecidableEq

def entryFacultyKey (e : Entry) : Nat × String × Nat := (e.faculty, e.day, e.slotNumber)

def entryRoomKey (e : Entry) : Nat × String × Nat := (e.room, e.day, e.slotNumber)

def entrySectionKey (e : Entry) : String × String × Nat :=
  (e.sectionName, e.day, e.slotNumber)

/-- A conflict record emitted by `detectConflicts` (`{type, severity,
affectedEntities}`; the free-text description is display-only and omitted). -/
structure Conflict where
  ctype : String
  severity : String
  facultyLabel : Option String
  roomLabel : Option String
  sectionLabel : Option String
  day : String
  slotNumber : Nat
  deriving DecidableEq

/-- The loop of `scheduleSchema.methods.detectConflicts`: three per-entity
seen sets (faculty / room / section keyed with the `(day, slot)` time key);
an entry whose key was already seen pushes one conflict of the matching type,
faculty first, then room, then section. -/
def detectAux (fs rs : List (Nat × String × Nat))
    (ss : List (String × String × Nat)) : List Entry → List Conflict
  | [] => []
  | e :: rest =>
    let cf : List Conflict :=
      if entryFacultyKey e ∈ fs then
        [⟨"faculty_double_booking", "critical", some e.facultyName, none, none,
          e.day, e.slotNumber⟩]
      else []
    let cr : List Conflict :=
      if entryRoomKey e ∈ rs then
        [⟨"room_double_booking", "critical", none, some e.roomNumber, none,
          e.day, e.slotNumber⟩]
      else []
    let cs : List Conflict :=
      if entrySectionKey e ∈ ss then
        [⟨"student_section_conflict", "critical", none, none,
          some e.sectionName, e.day, e.slotNumber⟩]
      else []
    cf ++ cr ++ cs ++
      detectAux (entryFacultyKey e :: fs) (entryRoomKey e :: rs)
        (entrySectionKey e :: ss) rest

def detectConflicts (entries : List Entry) : List Conflict :=
  detectAux [] [] [] entries

/-! ## ConstraintChecker (constraintChecker.js) -/

structure CheckResult where
  violated : Bool
  count : Nat
  deriving DecidableEq

/-- Per-faculty assigned hours in the validator (`entry.duration || 1`). -/
def entriesAssignedHours (entries : List Entry) (fid : Nat) : ℚ :=
  ((entries.filter (fun e => e.faculty = fid)).map
    (fun e => if e.duration = 0 then 1 else e.duration)).sum

/-- `checkFacultyWorkloadConstraint`: flags over-max faculty when the
constraint name mentions "Max" and under-min faculty when it mentions "Min"
(both tests run independently, as the two ifs in the source). -/
def checkFacultyWorkloadConstraint (c : Constraint) (entries : List Entry)
    (faculty : List Faculty) : CheckResult :=
  let cnt := (faculty.map (fun f =>
    let assigned := entriesAssignedHours entries f.fid
    let mx := jsNumOr (f.workload.map (fun w => w.maxHoursPerWeek)) 18
    let mn := jsNumOr (f.workload.map (fun w => w.minHoursPerWeek)) 12
    (if jsIncludes c.name "Max" ∧ assigned > mx then 1 else 0)
      + (if jsIncludes c.name "Min" ∧ assigned < mn then 1 else 0))).sum
  ⟨decide (0 < cnt), cnt⟩

/-- `checkRoomAllocationConstraint`: "(room, day, slot)" duplicates when the
name mentions "Double Booking"; capacity below the placeholder section size 60
when it mentions "Capacity" (unknown rooms are skipped). -/
def checkRoomAllocationConstraint (c : Constraint) (entries : List Entry)
    (rooms : List Room) : CheckResult :=
  let dbl := if jsIncludes c.name "Double Booking" then
    dupCount (entries.map entryRoomKey) else 0
  let cap := if jsIncludes c.name "Capacity" then
    ((entries.map (fun e =>
      match findRoom rooms e.room with
      | some room => if room.capacity < 60 then 1 else 0
      | none => 0)).sum) else 0
  ⟨decide (0 < dbl + cap), dbl + cap⟩

/-- `checkTimeSlotConstraint`: the availability branch has no logic; no
violation is ever produced. -/
def checkTimeSlotConstraint (_c : Constraint) (_entries : List Entry) :
    CheckResult :=
  ⟨false, 0⟩

/-- One gap-violation per consecutive same-day pair more than 2 slots apart
(sorted slot numbers). -/
def bigGaps : List Nat → Nat
  | [] => 0
  | [_] => 0
  | a :: b :: rest =>
    (if (b : Int) - (a : Int) - 1 > 2 then 1 else 0) + bigGaps (b :: rest)

def sectionGapViolations (entries : List Entry) : Nat :=
  let keys := (entries.map (fun e => (e.sectionName, e.day))).dedup
  (keys.map (fun k =>
    bigGaps (sortSlots ((entries.filter (fun e =>
      e.sectionName = k.1 && e.day = k.2)).map (fun e => e.slotNumber))))).sum

/-- `checkStudentSectionConstraint`: section `(section, day, slot)` duplicates
when the name mentions "Conflict" or "No Student Section"; gaps greater than 2
when it mentions "Gap". -/
def checkStudentSectionConstraint (c : Constraint) (entries : List Entry) :
    CheckResult :=
  let confl := if jsIncludes c.name "Conflict" ∨ jsIncludes c.name "No Student Section"
    then dupCount (entries.map entrySectionKey) else 0
  let gaps := if jsIncludes c.name "Gap" then sectionGapViolations entries else 0
  ⟨decide (0 < confl + gaps), confl + gaps⟩

/-- The multi-slot-lab walk of `checkLabContinuityConstraint`; the source
hard-codes `isConsecutive = true` ("This would be actual check"), so the inner
push is dead and every entry contributes zero. -/
def labContinuityViolations (entries : List Entry) : Nat :=
  ((entries.filter (fun e => e.sessionType = "lab")).map (fun s =>
    if s.consecutiveSlots > 1 then (if (true : Bool) then 0 else 1) else 0)).sum

def checkLabContinuityConstraint (_c : Constraint) (entries : List Entry) :
    CheckResult :=
  ⟨decide (0 < labContinuityViolations entries), labContinuityViolations entries⟩

/-- `checkElectiveGroupingConstraint`: bucket elective entries by
`(elective-group, day, slot)`; every bucket with at least two entries is one
violation. -/
def checkElectiveGroupingConstraint (_c : Constraint) (entries : List Entry)
    (courses : List Course) : CheckResult :=
  let tagged := entries.filterMap (fun e =>
    match findCourse courses e.course with
    | some course =>
      if course.isElective then
        match course.electiveGroup with
        | some g => some (g, e.day, e.slotNumber)
        | none => none
      else none
    | none => none)
  let cnt := ((tagged.dedup).map (fun b =>
    if 1 < keyOccurrences tagged b then 1 else 0)).sum
  ⟨decide (0 < cnt), cnt⟩

/-- `ConstraintChecker.checkConstraint`: dispatch on the category field. -/
def checkConstraint (c : Constraint) (entries : List Entry)
    (courses : List Course) (faculty : List Faculty) (rooms : List Room) :
    CheckResult :=
  if c.category = "faculty_workload" then
    checkFacultyWorkloadConstraint c entries faculty
  else if c.category = "room_allocation" then
    checkRoomAllocationConstraint c entries rooms
  else if c.category = "time_slot" then
    checkTimeSlotConstraint c entries
  else if c.category = "student_section" then
    checkStudentSectionConstraint c entries
  else if c.category = "lab_continuity" then
    checkLabContinuityConstraint c entries
  else if c.category = "elective_grouping" then
    checkElectiveGroupingConstraint c entries courses
  else ⟨false, 0⟩

/-- A violation bucket record (`{constraint, category, description, count}`;
the per-violation detail payloads are display-only and omitted;
`count: result.count || 1`). -/
structure Violation where
  name : String
  category : String
  description : String
  count : Nat
  deriving DecidableEq

/-- `ConstraintChecker.validateSchedule`: run every active constraint, route
violated ones into the hard or soft bucket by the constraint's kind. -/
def validateSchedule (entries : List Entry) (courses : List Course)
    (faculty : List Faculty) (rooms : List Room)
    (constraints : List Constraint) : List Violation × List Violation :=
  (constraints.filterMap (fun c =>
    if c.isActive then
      let r := checkConstraint c entries courses faculty rooms
      if r.violated ∧ c.ctype = "hard" then
        some ⟨c.name, c.category, c.description, if r.count = 0 then 1 else r.count⟩
      else none
    else none),
   constraints.filterMap (fun c =>
    if c.isActive then
      let r := checkConstraint c entries courses faculty rooms
      if r.violated ∧ c.ctype ≠ "hard" then
        some ⟨c.name, c.category, c.description, if r.count = 0 then 1 else r.count⟩
      else none
    else none))

/-- `Constraint.getDefaultConstraints()` (the priority field is not read by
the checker and is omitted). -/
def defaultConstraints : List Constraint :=
  [⟨"No Faculty Double Booking", "hard", "faculty_workload",
    "A faculty member cannot be assigned to multiple classes at the same time",
    100, true⟩,
   ⟨"No Room Double Booking", "hard", "room_allocation",
    "A room cannot be assigned to multiple classes at the same time",
    100, true⟩,
   ⟨"No Student Section Conflict", "hard", "student_section",
    "Students of a section cannot have multiple classes at the same time",
    100, true⟩,
   ⟨"Lab Session Continuity", "hard", "lab_continuity",
    "Lab sessions must be scheduled in consecutive time slots without breaks",
    90, true⟩,
   ⟨"Room Capacity Check", "hard", "room_allocation",
    "Room capacity must be sufficient for the section strength",
    90, true⟩,
   ⟨"Faculty Qualification Match", "hard", "faculty_workload",
    "Faculty must be qualified to teach the assigned course",
    90, true⟩,
   ⟨"Faculty Availability", "hard", "time_slot",
    "Classes must be scheduled during faculty available hours",
    90, true⟩,
   ⟨"Elective Group No Overlap", "hard", "elective_grouping",
    "Electives in the same group must not be scheduled at the same time",
    80, true⟩,
   ⟨"Faculty Max Hours Per Week", "soft", "faculty_workload",
    "Faculty teaching hours should not exceed maximum weekly limit",
    70, true⟩,
   ⟨"Faculty Min Hours Per Week", "soft", "faculty_workload",
    "Faculty should be assigned minimum teaching hours",
    60, true⟩,
   ⟨"Workload Balance", "soft", "faculty_workload",
    "Teaching load should be balanced across faculty members",
    60, true⟩,
   ⟨"Minimize Student Gaps", "soft", "student_section",
    "Minimize idle time between classes for students",
    50, true⟩,
   ⟨"Faculty Preferred Time Slots", "soft", "preference",
    "Try to assign classes during faculty preferred time slots",
    40, true⟩,
   ⟨"Avoid Faculty Consecutive Hours", "soft", "faculty_workload",
    "Faculty should not teach more than 3 consecutive hours",
    50, true⟩,
   ⟨"Balanced Daily Distribution", "soft", "time_slot",
    "Classes should be distributed evenly across days of the week",
    40, true⟩,
   ⟨"Course Preferred Days", "soft", "preference",
    "Schedule courses on their preferred days when possible",
    30, true⟩,
   ⟨"Room Utilization Optimization", "soft", "room_allocation",
    "Optimize room usage to avoid under-utilization",
    30, true⟩,
   ⟨"Lab Type Match", "soft", "room_allocation",
    "Assign labs to rooms with appropriate equipment",
    60, true⟩]

/-! ## C3: the fast pass versus the validator -/

lemma detectAux_countP (entries : List Entry) :
    ∀ fs rs ss,
      ((detectAux fs rs ss entries).countP
          (fun c => decide (c.ctype = "faculty_double_booking"))
        = dupCountAux fs (entries.map entryFacultyKey))
      ∧ ((detectAux fs rs ss entries).countP
          (fun c => decide (c.ctype = "room_double_booking"))
        = dupCountAux rs (entries.map entryRoomKey))
      ∧ ((detectAux fs rs ss entries).countP
          (fun c => decide (c.ctype = "student_section_conflict"))
        = dupCountAux ss (entries.map entrySectionKey)) := by
  induction entries with
  | nil => intro fs rs ss; exact ⟨rfl, rfl, rfl⟩
  | cons e rest ih =>
    intro fs rs ss
    have h := ih (entryFacultyKey e :: fs) (entryRoomKey e :: rs)
      (entrySectionKey e :: ss)
    refine ⟨?_, ?_, ?_⟩ <;>
      by_cases hf : entryFacultyKey e ∈ fs <;>
        by_cases hr : entryRoomKey e ∈ rs <;>
          by_cases hs : entrySectionKey e ∈ ss <;>
            simp [detectAux, dupCountAux, hf, hr, hs, h.1, h.2.1, h.2.2,
              List.countP_append, List.countP_cons] <;> omega

/-- The count of each conflict type emitted by the fast pass equals the
duplicate count of the corresponding key family. -/
lemma detectConflicts_counts (entries : List Entry) :
    ((detectConflicts entries).countP
        (fun c => decide (c.ctype = "faculty_double_booking"))
      = dupCount (entries.map entryFacultyKey))
    ∧ ((detectConflicts entries).countP
        (fun c => decide (c.ctype = "room_double_booking"))
      = dupCount (entries.map entryRoomKey))
    ∧ ((detectConflicts entries).countP
        (fun c => decide (c.ctype = "student_section_conflict"))
      = dupCount (entries.map entrySectionKey)) :=
  detectAux_countP entries [] [] []

/-- The validator's lab-continuity counter is dead code: zero always. -/
lemma labContinuityViolations_eq_zero (entries : List Entry) :
    labContinuityViolations entries = 0 := by
  unfold labContinuityViolations
  induction entries.filter (fun e => e.sessionType = "lab") with
  | nil => rfl
  | cons s rest ih => simp [ih]

/-- A faculty-workload check whose constraint name mentions neither "Max" nor
"Min" never reports a violation. -/
lemma checkFacultyWorkload_no_keyword (c : Constraint) (entries : List Entry)
    (faculty : List Faculty) (hmax : jsIncludes c.name "Max" = false)
    (hmin : jsIncludes c.name "Min" = false) :
    checkFacultyWorkloadConstraint c entries faculty = ⟨false, 0⟩ := by
  unfold checkFacultyWorkloadConstraint
  have hz : (faculty.map (fun f =>
      let assigned := entriesAssignedHours entries f.fid
      let mx := jsNumOr (f.workload.map (fun w => w.maxHoursPerWeek)) 18
      let mn := jsNumOr (f.workload.map (fun w => w.minHoursPerWeek)) 12
      (if jsIncludes c.name "Max" ∧ assigned > mx then 1 else 0)
        + (if jsIncludes c.name "Min" ∧ assigned < mn then 1 else 0))).sum = 0 := by
    rw [List.sum_eq_zero]
    intro x hx
    rw [List.mem_map] at hx
    obtain ⟨f, _, rfl⟩ := hx
    simp [hmax, hmin]
  simp [hz]

/-- Whatever the hard bucket of `validateSchedule` contains came from an
active hard constraint that its checker flagged, and it inherits that
constraint's name and category. -/
lemma validate_hard_shape (entries : List Entry) (courses : List Course)
    (faculty : List Faculty) (rooms : List Room) (c : Constraint)
    (v : Violation)
    (h : (if c.isActive then
        (let r := checkConstraint c entries courses faculty rooms
         if r.violated ∧ c.ctype = "hard" then
           some ⟨c.name, c.category, c.description,
             if r.count = 0 then 1 else r.count⟩
         else none)
      else none) = some v) :
    v.category = c.category ∧ c.ctype = "hard"
      ∧ (checkConstraint c entries courses faculty rooms).violated = true := by
  by_cases ha : c.isActive
  · rw [if_pos ha] at h
    simp only at h
    split at h
    · rename_i hcond
      cases h
      exact ⟨rfl, hcond.2, hcond.1⟩
    · cases h
  · rw [if_neg ha] at h
    cases h

/-- C3 (amended).  On the default constraint catalog, the room double-booking
and student-section conflicts of the detect-conflicts fast pass do correspond
to hard validator violations of the same category and the same count; but the
fast pass's faculty double-booking conflicts have no validator counterpart:
the validator's hard output never contains a faculty-workload violation (its
faculty-workload checker only reacts to "Max"/"Min" names), so the fast pass
is not a subset of the validator's hard-violation output. -/
theorem c3_fast_pass_validator (entries : List Entry) (courses : List Course)
    (faculty : List Faculty) (rooms : List Room) :
    ((detectConflicts entries).countP
        (fun c => decide (c.ctype = "room_double_booking"))
      = dupCount (entries.map entryRoomKey))
    ∧ (0 < dupCount (entries.map entryRoomKey) →
        ∃ v ∈ (validateSchedule entries courses faculty rooms
            defaultConstraints).1,
          v.category = "room_allocation"
            ∧ v.count = dupCount (entries.map entryRoomKey))
    ∧ ((detectConflicts entries).countP
        (fun c => decide (c.ctype = "student_section_conflict"))
      = dupCount (entries.map entrySectionKey))
    ∧ (0 < dupCount (entries.map entrySectionKey) →
        ∃ v ∈ (validateSchedule entries courses faculty rooms
            defaultConstraints).1,
          v.category = "student_section"
            ∧ v.count = dupCount (entries.map entrySectionKey))
    ∧ (∀ v ∈ (validateSchedule entries courses faculty rooms
          defaultConstraints).1, v.category ≠ "faculty_workload") := by
  refine ⟨(detectConflicts_counts entries).2.1, ?_, (detectConflicts_counts entries).2.2, ?_, ?_⟩
  · intro hpos
    refine ⟨⟨"No Room Double Booking", "room_allocation",
      "A room cannot be assigned to multiple classes at the same time",
      dupCount (entries.map entryRoomKey)⟩, ?_, rfl, rfl⟩
    rw [validateSchedule]
    rw [List.mem_filterMap]
    refine ⟨⟨"No Room Double Booking", "hard", "room_allocation",
      "A room cannot be assigned to multiple classes at the same time",
      100, true⟩, by simp [defaultConstraints], ?_⟩
    have h1 : jsIncludes "No Room Double Booking" "Double Booking" = true := by decide
    have h2 : jsIncludes "No Room Double Booking" "Capacity" = false := by decide
    have hne : dupCount (entries.map entryRoomKey) ≠ 0 := Nat.pos_iff_ne_zero.mp hpos
    simp [checkConstraint, checkRoomAllocationConstraint, h1, h2, hpos, hne]
  · intro hpos
    refine ⟨⟨"No Student Section Conflict", "student_section",
      "Students of a section cannot have multiple classes at the same time",
      dupCount (entries.map entrySectionKey)⟩, ?_, rfl, rfl⟩
    rw [validateSchedule]
    rw [List.mem_filterMap]
    refine ⟨⟨"No Student Section Conflict", "hard", "student_section",
      "Students of a section cannot have multiple classes at the same time",
      100, true⟩, by simp [defaultConstraints], ?_⟩
    have h1 : jsIncludes "No Student Section Conflict" "Conflict" = true := by decide
    have h2 : jsIncludes "No Student Section Conflict" "Gap" = false := by decide
    have hne : dupCount (entries.map entrySectionKey) ≠ 0 := Nat.pos_iff_ne_zero.mp hpos
    simp [checkConstraint, checkStudentSectionConstraint, h1, h2, hpos, hne]
  · intro v hv
    rw [validateSchedule] at hv
    rw [List.mem_filterMap] at hv
    obtain ⟨c, hc, hfc⟩ := hv
    obtain ⟨hcat, hhard, hviol⟩ :=
      validate_hard_shape entries courses faculty rooms c v hfc
    fin_cases hc
    · -- No Faculty Double Booking: its checker reacts only to Max/Min names
      rw [show checkConstraint
          ⟨"No Faculty Double Booking", "hard", "faculty_workload",
            "A faculty member cannot be assigned to multiple classes at the same time",
            100, true⟩ entries courses faculty rooms
          = checkFacultyWorkloadConstraint
            ⟨"No Faculty Double Booking", "hard", "faculty_workload",
              "A faculty member cannot be assigned to multiple classes at the same time",
              100, true⟩ entries faculty from by simp [checkConstraint]] at hviol
      rw [checkFacultyWorkload_no_keyword _ entries faculty (by decide)
        (by decide)] at hviol
      cases hviol
    · rw [hcat]; decide
    · rw [hcat]; decide
    · -- Lab Session Continuity: dead code, never violated
      rw [show checkConstraint
          ⟨"Lab Session Continuity", "hard", "lab_continuity",
            "Lab sessions must be scheduled in consecutive time slots without breaks",
            90, true⟩ entries courses faculty rooms
          = checkLabContinuityConstraint
            ⟨"Lab Session Continuity", "hard", "lab_continuity",
              "Lab sessions must be scheduled in consecutive time slots without breaks",
              90, true⟩ entries from by simp [checkConstraint]] at hviol
      rw [show checkLabContinuityConstraint
          ⟨"Lab Session Continuity", "hard", "lab_continuity",
            "Lab sessions must be scheduled in consecutive time slots without breaks",
            90, true⟩ entries = ⟨false, 0⟩ from by
        simp [checkLabContinuityConstraint, labContinuityViolations_eq_zero]] at hviol
      cases hviol
    · rw [hcat]; decide
    · -- Faculty Qualification Match: again a Max/Min-only checker
      rw [show checkConstraint
          ⟨"Faculty Qualification Match", "hard", "faculty_workload",
            "Faculty must be qualified to teach the assigned course",
            90, true⟩ entries courses faculty rooms
          = checkFacultyWorkloadConstraint
            ⟨"Faculty Qualification Match", "hard", "faculty_workload",
              "Faculty must be qualified to teach the assigned course",
              90, true⟩ entries faculty from by simp [checkConstraint]] at hviol
      rw [checkFacultyWorkload_no_keyword _ entries faculty (by decide)
        (by decide)] at hviol
      cases hviol
    · -- Faculty Availability: the time-slot checker has no logic
      rw [show checkConstraint
          ⟨"Faculty Availability", "hard", "time_slot",
            "Classes must be scheduled during faculty available hours",
            90, true⟩ entries courses faculty rooms = ⟨false, 0⟩ from by
        simp [checkConstraint, checkTimeSlotConstraint]] at hviol
      cases hviol
    · rw [hcat]; decide
    all_goals exact absurd hhard (by decide)

/-! ## Concrete fixtures for witnesses and counterexamples -/

def emptyDetails : Details := ⟨[], []⟩

def emptyChromosome : Chromosome := ⟨[], 0, 0, 0, emptyDetails⟩

/-- Two genes of one section at the same (day, slot): a section conflict plus
a duplicate slot number in the (section, day) gap group. -/
def c1CexGene1 : Gene :=
  ⟨1, "CS101", "Intro", "A", "theory", ⟨"Monday", 3, "09:00", "10:00"⟩,
    1, "F1", 1, "R1", 1, 1⟩

def c1CexGene2 : Gene :=
  ⟨1, "CS101", "Intro", "A", "theory", ⟨"Monday", 3, "09:00", "10:00"⟩,
    2, "F2", 2, "R2", 1, 1⟩

def c1CexChromosome : Chromosome :=
  ⟨[c1CexGene1, c1CexGene2], 0, 0, 0, emptyDetails⟩

/-- C1 witness: the amended identity, instantiated on the empty chromosome
(both gap totals are 0 there). -/
theorem c1_fitness_round_trip_witness :
    (calculate (mkWeights {}) emptyChromosome [] [] [] []).fitness
      = max 0 (1000 - detailsPenalty (mkWeights {})
          (calculate (mkWeights {}) emptyChromosome [] [] [] []).details) :=
  c1_fitness_round_trip {} emptyChromosome [] [] [] [] (by with_unfolding_all decide) (by with_unfolding_all decide)

/-- C1 counterexample: with a duplicated (section, day, slot), the student-gap
total is −1; the fitness (= 50 here: −1000 for the section conflict, +50 for
the negative gap total) exceeds `max(0, 1000 − Σ count_i × weight_i)` (= 0),
because the negative gap count is subtracted from fitness but never reported
in the details breakdown. -/
theorem c1_counterexample :
    (calculate (mkWeights {}) c1CexChromosome [] [] [] []).fitness
      ≠ max 0 (1000 - detailsPenalty (mkWeights {})
          (calculate (mkWeights {}) c1CexChromosome [] [] [] []).details) := by
  with_unfolding_all decide

/-- Fast-pass C3 counterexample entries: one faculty double-booked across two
rooms and two sections (no room or section duplicates). -/
def c3CexEntry1 : Entry :=
  ⟨"Monday", 1, "09:00", "10:00", 1, "CS101", "theory", "A", 1, "F1", 1, "R1", 1, 1⟩

def c3CexEntry2 : Entry :=
  ⟨"Monday", 1, "09:00", "10:00", 2, "CS102", "theory", "B", 1, "F1", 2, "R2", 1, 1⟩

/-- C3 counterexample: the fast pass emits a faculty double-booking conflict,
but the validator's hard-violation output on the same schedule under the
default catalog is empty — the fast pass is not a subset of the validator. -/
theorem c3_counterexample :
    0 < (detectConflicts [c3CexEntry1, c3CexEntry2]).countP
        (fun c => decide (c.ctype = "faculty_double_booking"))
      ∧ (validateSchedule [c3CexEntry1, c3CexEntry2] [] [] []
          defaultConstraints).1 = [] := by
  with_unfolding_all decide

/-- Entries with one room duplicate and one section duplicate, for the C3
witness. -/
def c3WitEntry1 : Entry :=
  ⟨"Monday", 2, "10:00", "11:00", 1, "CS101", "theory", "C", 1, "F1", 5, "R5", 1, 1⟩

def c3WitEntry2 : Entry :=
  ⟨"Monday", 2, "10:00", "11:00", 2, "CS102", "theory", "C", 2, "F2", 5, "R5", 1, 1⟩

/-- C3 witness: on a schedule with a room duplicate and a section duplicate,
the amended correspondence produces matching hard validator violations. -/
theorem c3_fast_pass_validator_witness :
    (∃ v ∈ (validateSchedule [c3WitEntry1, c3WitEntry2] [] [] []
        defaultConstraints).1,
      v.category = "room_allocation"
        ∧ v.count = dupCount ([c3WitEntry1, c3WitEntry2].map entryRoomKey))
    ∧ (∃ v ∈ (validateSchedule [c3WitEntry1, c3WitEntry2] [] [] []
        defaultConstraints).1,
      v.category = "student_section"
        ∧ v.count = dupCount ([c3WitEntry1, c3WitEntry2].map entrySectionKey)) :=
  ⟨(c3_fast_pass_validator [c3WitEntry1, c3WitEntry2] [] [] []).2.1 (by with_unfolding_all decide),
   (c3_fast_pass_validator [c3WitEntry1, c3WitEntry2] [] [] []).2.2.2.1 (by with_unfolding_all decide)⟩

/-! ## C8: unknown references are silently skipped, not counted -/

/-- C8 (amended).  Fitness evaluation never throws (it is a total function),
but a gene whose faculty id, or whose room/course id, is absent from the
snapshot is silently skipped by the availability and capacity checks: no
violation is counted for a missing reference. -/
theorem c8_missing_reference_skipped :
    (∀ (genes : List Gene) (faculty : List Faculty),
      (∀ g ∈ genes, findFaculty faculty g.facultyId = none) →
        checkFacultyAvailability genes faculty = 0)
    ∧ (∀ (genes : List Gene) (courses : List Course) (rooms : List Room),
      (∀ g ∈ genes, findRoom rooms g.roomId = none) →
        checkRoomCapacity genes courses rooms = 0)
    ∧ (∀ (genes : List Gene) (courses : List Course) (rooms : List Room),
      (∀ g ∈ genes, findCourse courses g.courseId = none) →
        checkRoomCapacity genes courses rooms = 0) := by
  refine ⟨?_, ?_, ?_⟩
  · intro genes faculty h
    unfold checkFacultyAvailability
    rw [List.sum_eq_zero]
    intro x hx
    rw [List.mem_map] at hx
    obtain ⟨g, hg, rfl⟩ := hx
    unfold availabilityMiss
    rw [h g hg]
  · intro genes courses rooms h
    unfold checkRoomCapacity
    rw [List.sum_eq_zero]
    intro x hx
    rw [List.mem_map] at hx
    obtain ⟨g, hg, rfl⟩ := hx
    unfold capacityMiss
    rw [h g hg]
  · intro genes courses rooms h
    unfold checkRoomCapacity
    rw [List.sum_eq_zero]
    intro x hx
    rw [List.mem_map] at hx
    obtain ⟨g, hg, rfl⟩ := hx
    unfold capacityMiss
    rcases hr : findRoom rooms g.roomId with _ | room
    · rfl
    · rw [h g hg]

/-- A gene whose course, faculty and room ids (99) resolve to nothing. -/
def c8CexGene : Gene :=
  ⟨99, "GHOST", "Ghost", "A", "theory", ⟨"Monday", 1, "09:00", "10:00"⟩,
    99, "Ghost F", 99, "Ghost R", 1, 1⟩

def c8CexChromosome : Chromosome := ⟨[c8CexGene], 0, 0, 0, emptyDetails⟩

/-- C8 counterexample: a chromosome holding one gene with three dangling
references evaluates to zero hard violations — not one per missing reference
as the claim demands. -/
theorem c8_counterexample :
    (calculate (mkWeights {}) c8CexChromosome [] [] [] []).hardViolations = 0 := by
  with_unfolding_all decide

/-- C8 witness: the amended no-count behaviour at a concrete input. -/
theorem c8_missing_reference_skipped_witness :
    checkFacultyAvailability [c8CexGene] [] = 0
      ∧ checkRoomCapacity [c8CexGene] [] [] = 0 :=
  ⟨c8_missing_reference_skipped.1 [c8CexGene] [] (by with_unfolding_all decide),
   c8_missing_reference_skipped.2.1 [c8CexGene] [] [] (by with_unfolding_all decide)⟩

/-! ## GeneticAlgorithm (genericAlgorithm.js) -/

/-- The immutable input snapshot handed to `initialize`. -/
structure Snapshot where
  courses : List Course
  faculty : List Faculty
  rooms : List Room
  timeSlots : List TimeSlot
  constraints : List Constraint
  deriving DecidableEq

/-- The recognized options dictionary (spec §6): six numeric knobs, a weight
table and an optional seed. -/
structure GAConfig where
  populationSize : Option Nat := none
  maxGenerations : Option Nat := none
  mutationRate : Option ℚ := none
  crossoverRate : Option ℚ := none
  elitismCount : Option Nat := none
  tournamentSize : Option Nat := none
  weights : WeightsConfig := {}
  seed : Option Nat := none
  deriving DecidableEq

structure GASettings where
  populationSize : Nat
  maxGenerations : Nat
  mutationRate : ℚ
  crossoverRate : ℚ
  elitismCount : Nat
  tournamentSize : Nat
  weights : Weights
  deriving DecidableEq

/-- The `GeneticAlgorithm` constructor: `config.x || default` for the six
knobs, plus `new FitnessCalculator(config.weights)`.  Note that no `seed`
field is read. -/
def mkSettings (cfg : GAConfig) : GASettings where
  populationSize := jsNatOr cfg.populationSize 100
  maxGenerations := jsNatOr cfg.maxGenerations 1000
  mutationRate := jsNumOr cfg.mutationRate (1 / 10)
  crossoverRate := jsNumOr cfg.crossoverRate (8 / 10)
  elitismCount := jsNatOr cfg.elitismCount 5
  tournamentSize := jsNatOr cfg.tournamentSize 5
  weights := mkWeights cfg.weights

/-- One required session (`{type, duration, consecutiveSlots}`). -/
structure Session where
  stype : String
  duration : ℚ
  consecutiveSlots : Nat
  deriving DecidableEq

/-- `getRequiredSessions`: ⌈hoursPerWeek / sessionDuration⌉ theory sessions
when theory hours are positive, then the same for lab (labs additionally
declare ⌈sessionDuration⌉ consecutive slots).  (A zero `sessionDuration`
would make the JS loop diverge on `Infinity`; in `ℚ` the quotient is 0.) -/
def getRequiredSessions (course : Course) : List Session :=
  (if course.theoryHours.hoursPerWeek > 0 then
    List.replicate
      (⌈course.theoryHours.hoursPerWeek / course.theoryHours.sessionDuration⌉).toNat
      ⟨"theory", course.theoryHours.sessionDuration, 1⟩
  else []) ++
  (if course.labHours.hoursPerWeek > 0 then
    List.replicate
      (⌈course.labHours.hoursPerWeek / course.labHours.sessionDuration⌉).toNat
      ⟨"lab", course.labHours.sessionDuration,
        (⌈course.labHours.sessionDuration⌉).toNat⟩
  else [])

/-- `isRoomSuitable`: active, big enough, of the right type, and (for labs
with a specific requirement other than "general") of the right lab subtype. -/
def isRoomSuitable (room : Room) (course : Course) (sessionType : String)
    (sec : CourseSection) : Bool :=
  if !room.isActive then false
  else if room.capacity < sec.strength then false
  else if sessionType = "lab" then
    if room.rtype ≠ "lab" then false
    else
      match course.roomRequirements with
      | none => true
      | some rr =>
        match rr.lab with
        | none => true
        | some labReq =>
          match labReq.specificLabType with
          | none => true
          | some t =>
            let required := jsToLower t
            if room.labType ≠ some required ∧ required ≠ "general" then false
            else true
  else if room.rtype ≠ "classroom" ∧ room.rtype ≠ "seminar_hall" then false
  else true

/-- `faculty.filter(f => f.subjects.some(s => s.courseId === course._id) &&
f.isActive)`. -/
def eligibleFacultyList (S : Snapshot) (course : Course) : List Faculty :=
  S.faculty.filter (fun fac =>
    fac.subjects.any (fun cid => decide (cid = course.cid)) && fac.isActive)

def eligibleRoomsList (S : Snapshot) (course : Course) (sessionType : String)
    (sec : CourseSection) : List Room :=
  S.rooms.filter (fun r => isRoomSuitable r course sessionType sec)

def defaultGene : Gene :=
  ⟨0, "", "", "", "", ⟨"", 0, "", ""⟩, 0, "", 0, "", 0, 0⟩

def defaultFaculty : Faculty := ⟨0, "", [], none, none, false⟩

def defaultRoom : Room := ⟨0, "", 0, "", none, false⟩

def defaultChromosome : Chromosome := ⟨[], 0, 0, 0, ⟨[], []⟩⟩

/-- `createRandomGene`: draw a slot index, filter eligible faculty (empty →
`null`), draw one, filter suitable rooms (empty → `null`), draw one, and
build the gene.  An out-of-range slot index (empty grid) makes the JS body
throw on `timeSlot.day`; the surrounding `try` turns that into `null`, here
the `Option.none` of the final lookup.  Out-of-range faculty/room indices
cannot occur for draws in `[0, 1)`; `getD` returns a placeholder there. -/
def createRandomGene (S : Snapshot) (course : Course) (sec : CourseSection)
    (sess : Session) (f : Nat → ℚ) (i : Nat) : Option Gene × Nat :=
  let slotIdx := jsIndex (f i) S.timeSlots.length
  let eligF := eligibleFacultyList S course
  if eligF.isEmpty then (none, i + 1)
  else
    let fac := eligF.getD (jsIndex (f (i + 1)) eligF.length) defaultFaculty
    let eligR := eligibleRoomsList S course sess.stype sec
    if eligR.isEmpty then (none, i + 2)
    else
      let room := eligR.getD (jsIndex (f (i + 2)) eligR.length) defaultRoom
      match S.timeSlots[slotIdx]? with
      | none => (none, i + 3)
      | some ts =>
        (some ⟨course.cid, course.courseCode, course.courseName,
          sec.sectionName, sess.stype, ⟨ts.day, ts.slotNumber, ts.startTime, ts.endTime⟩,
          fac.fid, fac.name, room.rid, room.roomNumber,
          sess.duration, sess.consecutiveSlots⟩, i + 3)

/-- The inner session loop of `createRandomChromosome` (genes of `null` are
dropped). -/
def genSessions (S : Snapshot) (course : Course) (sec : CourseSection)
    (f : Nat → ℚ) : List Session → Nat → List Gene × Nat
  | [], i => ([], i)
  | sess :: rest, i =>
    let gi := createRandomGene S course sec sess f i
    let gs := genSessions S course sec f rest gi.2
    (match gi.1 with
     | some g => g :: gs.1
     | none => gs.1, gs.2)

/-- The section loop. -/
def genSections (S : Snapshot) (course : Course) (sessions : List Session)
    (f : Nat → ℚ) : List CourseSection → Nat → List Gene × Nat
  | [], i => ([], i)
  | sec :: rest, i =>
    let g1 := genSessions S course sec f sessions i
    let g2 := genSections S course sessions f rest g1.2
    (g1.1 ++ g2.1, g2.2)

/-- The course loop. -/
def genCourses (S : Snapshot) (f : Nat → ℚ) : List Course → Nat → List Gene × Nat
  | [], i => ([], i)
  | course :: rest, i =>
    let g1 := genSections S course (getRequiredSessions course) f course.sections i
    let g2 := genCourses S f rest g1.2
    (g1.1 ++ g2.1, g2.2)

/-- `createRandomChromosome`. -/
def createRandomChromosome (S : Snapshot) (f : Nat → ℚ) (i : Nat) :
    Chromosome × Nat :=
  let g := genCourses S f S.courses i
  (⟨g.1, 0, 0, 0, ⟨[], []⟩⟩, g.2)

/-- `generateInitialPopulation` (`populationSize` random chromosomes, built in
order). -/
def buildPopulation (S : Snapshot) (f : Nat → ℚ) : Nat → Nat →
    List Chromosome × Nat
  | 0, i => ([], i)
  | n + 1, i =>
    let c := createRandomChromosome S f i
    let rest := buildPopulation S f n c.2
    (c.1 :: rest.1, rest.2)

/-- `evaluateChromosome`: run the fitness calculator and cache the results on
the chromosome. -/
def evaluateChromosome (w : Weights) (S : Snapshot) (c : Chromosome) :
    Chromosome :=
  let e := calculate w c S.courses S.faculty S.rooms S.constraints
  ⟨c.genes, e.fitness, e.hardViolations, e.softViolations, e.details⟩

/-- `getBestChromosome`: `reduce` with the first element as accumulator
(`none` on an empty population, where JS would throw). -/
def getBestChromosome (pop : List Chromosome) : Option Chromosome :=
  match pop with
  | [] => none
  | p :: rest =>
    some (rest.foldl (fun best cur =>
      if cur.fitness > best.fitness then cur else best) p)

/-- `getGenerationStats` (best fitness, mean fitness). -/
def getGenerationStats (pop : List Chromosome) : ℚ × ℚ :=
  match pop with
  | [] => (0, 0)
  | p :: rest =>
    (rest.foldl (fun m c => max m c.fitness) p.fitness,
      ((p :: rest).map (fun c => c.fitness)).sum / ((p :: rest).length : ℚ))

/-- The best-so-far update of `optimize` (lines 55–57): replace only when the
current generation's best has strictly higher fitness.  The JS deep copy is
value copying here. -/
def trackBest (best : Option Chromosome) (cur : Chromosome) : Chromosome :=
  match best with
  | none => cur
  | some b => if cur.fitness > b.fitness then cur else b

structure HistoryEntry where
  generation : Nat
  bestFitness : ℚ
  avgFitness : ℚ
  hardViolations : Nat
  softViolations : Int
  deriving DecidableEq

/-- Stable insert for the descending fitness sort (JS `sort` is stable; an
element is placed before later elements of equal fitness). -/
def insertDesc (x : Chromosome) : List Chromosome → List Chromosome
  | [] => [x]
  | y :: ys => if y.fitness ≤ x.fitness then x :: y :: ys else y :: insertDesc x ys

def sortByFitnessDesc (l : List Chromosome) : List Chromosome :=
  l.foldr insertDesc []

/-- `tournamentSelection`'s sampling loop. -/
def tournamentLoop (pop : List Chromosome) (f : Nat → ℚ) :
    Nat → Option Chromosome → Nat → Option Chromosome × Nat
  | 0, best, i => (best, i)
  | n + 1, best, i =>
    let cand := pop.getD (jsIndex (f i) pop.length) defaultChromosome
    let best' := match best with
      | none => some cand
      | some b => if cand.fitness > b.fitness then some cand else some b
    tournamentLoop pop f n best' (i + 1)

def tournamentSelection (st : GASettings) (pop : List Chromosome)
    (f : Nat → ℚ) (i : Nat) : Chromosome × Nat :=
  let r := tournamentLoop pop f st.tournamentSize none i
  (r.1.getD defaultChromosome, r.2)

/-- `crossover`: single-point cut over parent 1's gene sequence. -/
def crossover (p1 p2 : Chromosome) (f : Nat → ℚ) (i : Nat) :
    Chromosome × Nat :=
  let point := jsIndex (f i) p1.genes.length
  (⟨p1.genes.take point ++ p2.genes.drop point, 0, 0, 0, ⟨[], []⟩⟩, i + 1)

/-- The time-slot mutation arm: replace the gene's time slot with a drawn
slot.  (An empty grid would make JS throw on `undefined.day`; the gene is
left unchanged here.) -/
def mutateTime (S : Snapshot) (gene : Gene) (f : Nat → ℚ) (i : Nat) :
    Gene × Nat :=
  match S.timeSlots[jsIndex (f i) S.timeSlots.length]? with
  | none => (gene, i + 1)
  | some ts =>
    ({ gene with timeSlot := ⟨ts.day, ts.slotNumber, ts.startTime, ts.endTime⟩ },
      i + 1)

/-- The faculty mutation arm for a resolved course: draw a new eligible
faculty if any, else change nothing. -/
def mutateFacultyWith (S : Snapshot) (gene : Gene) (course : Course)
    (f : Nat → ℚ) (i : Nat) : Gene × Nat :=
  if (eligibleFacultyList S course).isEmpty then (gene, i)
  else
    let nf := (eligibleFacultyList S course).getD
      (jsIndex (f i) (eligibleFacultyList S course).length) defaultFaculty
    ({ gene with facultyId := nf.fid, facultyName := nf.name }, i + 1)

/-- The faculty mutation arm: resolve the gene's course first (an unresolved
course changes nothing). -/
def mutateFaculty (S : Snapshot) (gene : Gene) (f : Nat → ℚ) (i : Nat) :
    Gene × Nat :=
  match findCourse S.courses gene.courseId with
  | none => (gene, i)
  | some course => mutateFacultyWith S gene course f i

/-- The room mutation arm for a resolved course and section. -/
def mutateRoomWith (S : Snapshot) (gene : Gene) (course : Course)
    (sec : CourseSection) (f : Nat → ℚ) (i : Nat) : Gene × Nat :=
  if (eligibleRoomsList S course gene.sessionType sec).isEmpty then (gene, i)
  else
    let nr := (eligibleRoomsList S course gene.sessionType sec).getD
      (jsIndex (f i) (eligibleRoomsList S course gene.sessionType sec).length)
      defaultRoom
    ({ gene with roomId := nr.rid, roomNumber := nr.roomNumber }, i + 1)

/-- The room mutation arm for a resolved course: resolve the section next. -/
def mutateRoomFind (S : Snapshot) (gene : Gene) (course : Course)
    (f : Nat → ℚ) (i : Nat) : Gene × Nat :=
  match course.sections.find? (fun s => s.sectionName = gene.sectionName) with
  | none => (gene, i)
  | some sec => mutateRoomWith S gene course sec f i

/-- The room mutation arm: resolve the gene's course and section first. -/
def mutateRoom (S : Snapshot) (gene : Gene) (f : Nat → ℚ) (i : Nat) :
    Gene × Nat :=
  match findCourse S.courses gene.courseId with
  | none => (gene, i)
  | some course => mutateRoomFind S gene course f i

/-- The three equally likely mutation arms, dispatched on the
`mutationType` draw. -/
def mutateChosen (S : Snapshot) (gene : Gene) (mutationType : ℚ)
    (f : Nat → ℚ) (i : Nat) : Gene × Nat :=
  if mutationType < 33 / 100 then mutateTime S gene f i
  else if mutationType < 66 / 100 then mutateFaculty S gene f i
  else mutateRoom S gene f i

/-- `mutate`: pick one gene uniformly, then apply one of the three arms to
it in place.  The no-candidate arms write the gene back unchanged. -/
def mutate (S : Snapshot) (c : Chromosome) (f : Nat → ℚ) (i : Nat) :
    Chromosome × Nat :=
  if c.genes.isEmpty then (c, i)
  else
    let geneIndex := jsIndex (f i) c.genes.length
    let gene := c.genes.getD geneIndex defaultGene
    let arm := mutateChosen S gene (f (i + 1)) f (i + 2)
    (⟨c.genes.set geneIndex arm.1,
      c.fitness, c.hardViolations, c.softViolations, c.details⟩, arm.2)

/-- The offspring loop of `evolve` (tournament ×2, maybe crossover else clone
parent 1, maybe mutate). -/
def makeOffspring (S : Snapshot) (st : GASettings) (pop : List Chromosome)
    (f : Nat → ℚ) : Nat → Nat → List Chromosome × Nat
  | 0, i => ([], i)
  | n + 1, i =>
    let p1 := tournamentSelection st pop f i
    let p2 := tournamentSelection st pop f p1.2
    let off :=
      if f p2.2 < st.crossoverRate then crossover p1.1 p2.1 f (p2.2 + 1)
      else (p1.1, p2.2 + 1)
    let off2 :=
      if f off.2 < st.mutationRate then mutate S off.1 f (off.2 + 1)
      else (off.1, off.2 + 1)
    let rest := makeOffspring S st pop f n off2.2
    (off2.1 :: rest.1, rest.2)

/-- `evolve`: keep the top `elitismCount` by fitness, fill the rest with
offspring. -/
def evolve (S : Snapshot) (st : GASettings) (pop : List Chromosome)
    (f : Nat → ℚ) (i : Nat) : List Chromosome × Nat :=
  let elites := (sortByFitnessDesc pop).take st.elitismCount
  let offspring := makeOffspring S st pop f (st.populationSize - elites.length) i
  (elites ++ offspring.1, offspring.2)

/-- The generation loop of `optimize`: evaluate, track the best-so-far,
append a history record, stop early on a perfect solution, otherwise evolve.
`fuel` is the number of generations left. -/
def optimizeLoop (st : GASettings) (S : Snapshot) (f : Nat → ℚ) :
    Nat → Nat → List Chromosome → Option Chromosome → List HistoryEntry →
      Nat → Option Chromosome × List HistoryEntry
  | 0, _gen, _pop, best, hist, _i => (best, hist)
  | fuel + 1, gen, pop, best, hist, i =>
    let epop := pop.map (evaluateChromosome st.weights S)
    match getBestChromosome epop with
    | none => (best, hist)
    | some cur =>
      let b := trackBest best cur
      let stats := getGenerationStats epop
      let hist' := hist ++ [⟨gen, stats.1, stats.2, b.hardViolations, b.softViolations⟩]
      if b.hardViolations = 0 ∧ b.fitness > 950 then (some b, hist')
      else
        let next := evolve S st epop f i
        optimizeLoop st S f fuel (gen + 1) next.1 (some b) hist' next.2

/-- The result record (`{schedule, generations}`; the wall-clock
`computationTime` is not representable in the embedding). -/
structure GAResult where
  schedule : Option Chromosome
  generations : List HistoryEntry
  deriving DecidableEq

/-- `optimize`, driven by the ambient random sequence `f`. -/
def optimize (cfg : GAConfig) (S : Snapshot) (f : Nat → ℚ) : GAResult :=
  let st := mkSettings cfg
  let pop := buildPopulation S f st.populationSize 0
  let r := optimizeLoop st S f st.maxGenerations 0 pop.1 none [] pop.2
  ⟨r.1, r.2⟩

/-! ## C4: the best-so-far is monotone -/

lemma trackBest_le (b cur : Chromosome) :
    b.fitness ≤ (trackBest (some b) cur).fitness := by
  have h : trackBest (some b) cur = if cur.fitness > b.fitness then cur else b := rfl
  rw [h]
  split
  · rename_i hlt; exact le_of_lt hlt
  · exact le_refl _

/-- C4.  The recorded best-so-far chromosome is replaced only when the current
generation's best has strictly higher fitness, so its fitness never
decreases: one tracking step cannot lower it, and from any generation's state
onward the driver loop's final best-so-far has fitness at least the current
one's (hence `best_fitness(g2) ≥ best_fitness(g1)` for all `g1 < g2`). -/
theorem c4_best_monotone :
    (∀ b cur : Chromosome, b.fitness ≤ (trackBest (some b) cur).fitness)
    ∧ (∀ (st : GASettings) (S : Snapshot) (f : Nat → ℚ) (fuel gen : Nat)
        (pop : List Chromosome) (hist : List HistoryEntry) (i : Nat)
        (b : Chromosome),
        ∃ b', (optimizeLoop st S f fuel gen pop (some b) hist i).1 = some b'
          ∧ b.fitness ≤ b'.fitness) := by
  refine ⟨trackBest_le, ?_⟩
  intro st S f fuel
  induction fuel with
  | zero => intro gen pop hist i b; exact ⟨b, rfl, le_refl _⟩
  | succ n ih =>
    intro gen pop hist i b
    rw [optimizeLoop]
    cases hgb : getBestChromosome (pop.map (evaluateChromosome st.weights S)) with
    | none => exact ⟨b, rfl, le_refl _⟩
    | some cur =>
      simp only
      by_cases hstop : (trackBest (some b) cur).hardViolations = 0
          ∧ (trackBest (some b) cur).fitness > 950
      · rw [if_pos hstop]
        exact ⟨trackBest (some b) cur, rfl, trackBest_le b cur⟩
      · rw [if_neg hstop]
        obtain ⟨b', hb', hle⟩ := ih (gen + 1)
          (evolve S st (pop.map (evaluateChromosome st.weights S)) f i).1
          (hist ++ [⟨gen,
            (getGenerationStats (pop.map (evaluateChromosome st.weights S))).1,
            (getGenerationStats (pop.map (evaluateChromosome st.weights S))).2,
            (trackBest (some b) cur).hardViolations,
            (trackBest (some b) cur).softViolations⟩])
          (evolve S st (pop.map (evaluateChromosome st.weights S)) f i).2
          (trackBest (some b) cur)
        exact ⟨b', hb', le_trans (trackBest_le b cur) hle⟩

/-- C4 witness: the loop monotonicity instantiated at concrete arguments. -/
theorem c4_best_monotone_witness :
    ∃ b', (optimizeLoop (mkSettings {}) (Snapshot.mk [] [] [] [] [])
        (fun _ => 0) 1 0 [] (some defaultChromosome) [] 0).1 = some b'
      ∧ defaultChromosome.fitness ≤ b'.fitness :=
  c4_best_monotone.2 (mkSettings {}) (Snapshot.mk [] [] [] [] [])
    (fun _ => 0) 1 0 [] [] 0 defaultChromosome

/-! ## C10: one mutation touches at most one gene, in one field group -/

/-- All gene fields outside the time-slot group agree. -/
def sameExceptTimeSlot (g g' : Gene) : Prop :=
  g'.courseId = g.courseId ∧ g'.courseCode = g.courseCode
    ∧ g'.courseName = g.courseName ∧ g'.sectionName = g.sectionName
    ∧ g'.sessionType = g.sessionType ∧ g'.facultyId = g.facultyId
    ∧ g'.facultyName = g.facultyName ∧ g'.roomId = g.roomId
    ∧ g'.roomNumber = g.roomNumber ∧ g'.duration = g.duration
    ∧ g'.consecutiveSlots = g.consecutiveSlots

/-- All gene fields outside `{facultyId, facultyName}` agree. -/
def sameExceptFaculty (g g' : Gene) : Prop :=
  g'.courseId = g.courseId ∧ g'.courseCode = g.courseCode
    ∧ g'.courseName = g.courseName ∧ g'.sectionName = g.sectionName
    ∧ g'.sessionType = g.sessionType ∧ g'.timeSlot = g.timeSlot
    ∧ g'.roomId = g.roomId ∧ g'.roomNumber = g.roomNumber
    ∧ g'.duration = g.duration ∧ g'.consecutiveSlots = g.consecutiveSlots

/-- All gene fields outside `{roomId, roomNumber}` agree. -/
def sameExceptRoom (g g' : Gene) : Prop :=
  g'.courseId = g.courseId ∧ g'.courseCode = g.courseCode
    ∧ g'.courseName = g.courseName ∧ g'.sectionName = g.sectionName
    ∧ g'.sessionType = g.sessionType ∧ g'.timeSlot = g.timeSlot
    ∧ g'.facultyId = g.facultyId ∧ g'.facultyName = g.facultyName
    ∧ g'.duration = g.duration ∧ g'.consecutiveSlots = g.consecutiveSlots

/-- The three admissible frames of a mutation. -/
def mutationFrame (g g' : Gene) : Prop :=
  sameExceptTimeSlot g g' ∨ sameExceptFaculty g g' ∨ sameExceptRoom g g'

lemma mutationFrame_refl (g : Gene) : mutationFrame g g :=
  Or.inl ⟨rfl, rfl, rfl, rfl, rfl, rfl, rfl, rfl, rfl, rfl, rfl⟩

lemma mutationFrame_mutateTime (S : Snapshot) (gene : Gene) (f : Nat → ℚ)
    (i : Nat) : mutationFrame gene (mutateTime S gene f i).1 := by
  unfold mutateTime
  rcases S.timeSlots[jsIndex (f i) S.timeSlots.length]? with _ | ts
  · exact mutationFrame_refl gene
  · exact Or.inl ⟨rfl, rfl, rfl, rfl, rfl, rfl, rfl, rfl, rfl, rfl, rfl⟩

lemma mutationFrame_mutateFacultyWith (S : Snapshot) (gene : Gene)
    (course : Course) (f : Nat → ℚ) (i : Nat) :
    mutationFrame gene (mutateFacultyWith S gene course f i).1 := by
  unfold mutateFacultyWith
  by_cases he : (eligibleFacultyList S course).isEmpty
  · rw [if_pos he]
    exact mutationFrame_refl gene
  · rw [if_neg he]
    exact Or.inr (Or.inl ⟨rfl, rfl, rfl, rfl, rfl, rfl, rfl, rfl, rfl, rfl⟩)

lemma mutationFrame_mutateFaculty (S : Snapshot) (gene : Gene) (f : Nat → ℚ)
    (i : Nat) : mutationFrame gene (mutateFaculty S gene f i).1 := by
  unfold mutateFaculty
  rcases findCourse S.courses gene.courseId with _ | course
  · exact mutationFrame_refl gene
  · exact mutationFrame_mutateFacultyWith S gene course f i

lemma mutationFrame_mutateRoomWith (S : Snapshot) (gene : Gene)
    (course : Course) (sec : CourseSection) (f : Nat → ℚ) (i : Nat) :
    mutationFrame gene (mutateRoomWith S gene course sec f i).1 := by
  unfold mutateRoomWith
  by_cases he : (eligibleRoomsList S course gene.sessionType sec).isEmpty
  · rw [if_pos he]
    exact mutationFrame_refl gene
  · rw [if_neg he]
    exact Or.inr (Or.inr ⟨rfl, rfl, rfl, rfl, rfl, rfl, rfl, rfl, rfl, rfl⟩)

lemma mutationFrame_mutateRoomFind (S : Snapshot) (gene : Gene)
    (course : Course) (f : Nat → ℚ) (i : Nat) :
    mutationFrame gene (mutateRoomFind S gene course f i).1 := by
  unfold mutateRoomFind
  cases hfind : course.sections.find?
      (fun s => s.sectionName = gene.sectionName) with
  | none =>
    try rw [hfind]
    exact mutationFrame_refl gene
  | some sec =>
    try rw [hfind]
    exact mutationFrame_mutateRoomWith S gene course sec f i

lemma mutationFrame_mutateRoom (S : Snapshot) (gene : Gene) (f : Nat → ℚ)
    (i : Nat) : mutationFrame gene (mutateRoom S gene f i).1 := by
  unfold mutateRoom
  rcases findCourse S.courses gene.courseId with _ | course
  · exact mutationFrame_refl gene
  · exact mutationFrame_mutateRoomFind S gene course f i

lemma mutationFrame_mutateChosen (S : Snapshot) (gene : Gene)
    (mutationType : ℚ) (f : Nat → ℚ) (i : Nat) :
    mutationFrame gene (mutateChosen S gene mutationType f i).1 := by
  unfold mutateChosen
  by_cases h1 : mutationType < 33 / 100
  · rw [if_pos h1]
    exact mutationFrame_mutateTime S gene f i
  · rw [if_neg h1]
    by_cases h2 : mutationType < 66 / 100
    · rw [if_pos h2]
      exact mutationFrame_mutateFaculty S gene f i
    · rw [if_neg h2]
      exact mutationFrame_mutateRoom S gene f i

/-- Setting one index of a nonempty gene list is a single-gene frame change
whenever the written gene stands in `mutationFrame` to the gene read at that
index. -/
lemma set_mutationFrame (l : List Gene) (idx : Nat) (g' : Gene)
    (hl : l ≠ []) (hframe : mutationFrame (l.getD idx defaultGene) g') :
    ∃ j, j < l.length
      ∧ (∀ k, k ≠ j → (l.set idx g')[k]? = l[k]?)
      ∧ ∃ g g'', l[j]? = some g
        ∧ (l.set idx g')[j]? = some g''
        ∧ mutationFrame g g'' := by
  by_cases hj : idx < l.length
  · refine ⟨idx, hj, ?_, l[idx], g',
      List.getElem?_eq_getElem hj, ?_, ?_⟩
    · intro k hk
      exact List.getElem?_set_ne (Ne.symm hk)
    · rw [List.getElem?_set_self']
      simp [List.getElem?_eq_getElem hj]
    · rw [List.getD_eq_getElem l defaultGene hj] at hframe
      exact hframe
  · have hset : l.set idx g' = l := List.set_eq_of_length_le (by omega)
    have hpos : 0 < l.length := List.length_pos.mpr hl
    refine ⟨0, hpos, ?_, l[0], l[0],
      List.getElem?_eq_getElem hpos, ?_, mutationFrame_refl _⟩
    · intro k _
      rw [hset]
    · rw [hset]
      exact List.getElem?_eq_getElem hpos

/-- On a non-empty chromosome, `mutate` writes one index with the arm's
output. -/
lemma mutate_genes_eq (S : Snapshot) (c : Chromosome) (f : Nat → ℚ) (i : Nat)
    (hne : ¬ c.genes.isEmpty) :
    (mutate S c f i).1.genes
      = c.genes.set (jsIndex (f i) c.genes.length)
          (mutateChosen S (c.genes.getD (jsIndex (f i) c.genes.length) defaultGene)
            (f (i + 1)) f (i + 2)).1 := by
  unfold mutate
  rw [if_neg hne]

/-- C10.  One application of `mutate` leaves the gene count unchanged, does
nothing on an empty chromosome, and on a non-empty one modifies at most the
single chosen gene, which differs from its old value in at most one of the
three groups (time-slot fields / faculty fields / room fields); every other
field of that gene and every other gene are unchanged. -/
theorem c10_mutate_frame (S : Snapshot) (c : Chromosome) (f : Nat → ℚ)
    (i : Nat) :
    ((mutate S c f i).1.genes.length = c.genes.length)
    ∧ (c.genes = [] → (mutate S c f i).1 = c)
    ∧ (c.genes ≠ [] → ∃ j, j < c.genes.length
        ∧ (∀ k, k ≠ j → (mutate S c f i).1.genes[k]? = c.genes[k]?)
        ∧ ∃ g g', c.genes[j]? = some g
          ∧ (mutate S c f i).1.genes[j]? = some g'
          ∧ mutationFrame g g') := by
  by_cases hemp : c.genes.isEmpty
  · have hc : (mutate S c f i).1 = c := by
      unfold mutate
      rw [if_pos hemp]
    have hnil : c.genes = [] := List.isEmpty_iff.mp hemp
    exact ⟨by rw [hc], fun _ => hc, fun h => absurd hnil h⟩
  · have hne : c.genes ≠ [] := by
      intro h
      exact hemp (by simp [h])
    have heq := mutate_genes_eq S c f i hemp
    refine ⟨by rw [heq]; simp, fun h => absurd h hne, fun _ => ?_⟩
    obtain ⟨j, hj, hframe, g, g', hg, hg', hf'⟩ :=
      set_mutationFrame c.genes (jsIndex (f i) c.genes.length)
        (mutateChosen S (c.genes.getD (jsIndex (f i) c.genes.length) defaultGene)
          (f (i + 1)) f (i + 2)).1
        hne (mutationFrame_mutateChosen S _ _ f _)
    exact ⟨j, hj, fun k hk => by rw [heq]; exact hframe k hk,
      g, g', hg, by rw [heq]; exact hg', hf'⟩

/-- C10 witness: the frame property instantiated on a concrete two-gene
chromosome. -/
theorem c10_mutate_frame_witness :
    ∃ j, j < c1CexChromosome.genes.length
      ∧ (∀ k, k ≠ j →
          (mutate (Snapshot.mk [] [] [] [] []) c1CexChromosome (fun _ => 0) 0).1.genes[k]?
            = c1CexChromosome.genes[k]?)
      ∧ ∃ g g', c1CexChromosome.genes[j]? = some g
        ∧ (mutate (Snapshot.mk [] [] [] [] []) c1CexChromosome (fun _ => 0) 0).1.genes[j]?
          = some g'
        ∧ mutationFrame g g' :=
  (c10_mutate_frame (Snapshot.mk [] [] [] [] []) c1CexChromosome (fun _ => 0) 0).2.2
    (by with_unfolding_all decide)

/-! ## C9: there is no functional seed -/

/-- C9 (amended).  The `GeneticAlgorithm` constructor reads only the six
numeric knobs and the weight table from its configuration; a `seed` entry is
ignored, so the whole run is unaffected by it.  Determinism holds only
relative to the ambient `Math.random` draw sequence (the run is a pure
function of snapshot, configuration and draw sequence); two runs with equal
seeds but different ambient draws can differ. -/
theorem c9_seed_ignored (cfg : GAConfig) (s1 s2 : Option Nat) (S : Snapshot)
    (f : Nat → ℚ) :
    optimize { cfg with seed := s1 } S f = optimize { cfg with seed := s2 } S f := by
  have h : mkSettings { cfg with seed := s1 } = mkSettings { cfg with seed := s2 } := rfl
  simp only [optimize, h]

def c9Course : Course :=
  ⟨1, "CS101", "Intro", [⟨"A", 30⟩], ⟨12, 12⟩, ⟨0, 1⟩, none, false, none⟩

def c9Faculty : Faculty :=
  ⟨1, "F1", [1], some ⟨[⟨"08:00", "18:00"⟩], [], [], [], [], []⟩,
    some ⟨18, 12⟩, true⟩

def c9Room : Room := ⟨1, "R1", 40, "classroom", none, true⟩

def c9Snapshot : Snapshot :=
  ⟨[c9Course], [c9Faculty], [c9Room],
    [⟨"Monday", 1, "09:00", "10:00"⟩, ⟨"Monday", 2, "10:00", "11:00"⟩], []⟩

/-- A configuration carrying a seed. -/
def c9Config : GAConfig :=
  { populationSize := some 1, maxGenerations := some 1, seed := some 42 }

/-- C9 counterexample: with the seed present and identical snapshot and
configuration, two runs whose ambient `Math.random` sequences differ (first
draw 0 versus 1/2, steering the initial gene to Monday slot 1 versus slot 2)
produce different result records — the seed does not make runs reproducible,
because the source draws from the ambient generator. -/
theorem c9_counterexample :
    optimize c9Config c9Snapshot (fun _ => 0)
      ≠ optimize c9Config c9Snapshot (fun n => if n = 0 then 1 / 2 else 0) := by
  with_unfolding_all decide

/-! ## C5: gene count of Random Construction -/

lemma jsIndex_lt (r : ℚ) (len : Nat) (h0 : 0 ≤ r) (h1 : r < 1)
    (hlen : len ≠ 0) : jsIndex r len < len := by
  unfold jsIndex
  have hlpos : (0 : ℚ) < len := by exact_mod_cast Nat.pos_of_ne_zero hlen
  have hmul : r * (len : ℚ) < len := by
    calc r * (len : ℚ) < 1 * len := mul_lt_mul_of_pos_right h1 hlpos
    _ = len := one_mul _
  have hfl : ⌊r * (len : ℚ)⌋ < (len : ℤ) := Int.floor_lt.mpr (by exact_mod_cast hmul)
  have hnn : (0 : ℤ) ≤ ⌊r * (len : ℚ)⌋ :=
    Int.floor_nonneg.mpr (by positivity)
  omega

/-- With draws in `[0, 1)`, a nonempty grid, and nonempty candidate sets,
`createRandomGene` always emits a gene. -/
lemma createRandomGene_isSome (S : Snapshot) (course : Course)
    (sec : CourseSection) (sess : Session) (f : Nat → ℚ) (i : Nat)
    (hf : ValidRand f) (hts : S.timeSlots ≠ [])
    (hF : eligibleFacultyList S course ≠ [])
    (hR : eligibleRoomsList S course sess.stype sec ≠ []) :
    ∃ g, (createRandomGene S course sec sess f i).1 = some g := by
  simp only [createRandomGene]
  rw [if_neg (fun h => hF (List.isEmpty_iff.mp h))]
  rw [if_neg (fun h => hR (List.isEmpty_iff.mp h))]
  have hlt := jsIndex_lt (f i) S.timeSlots.length (hf i).1 (hf i).2
    (fun h => hts (List.length_eq_zero.mp h))
  rw [List.getElem?_eq_getElem hlt]
  exact ⟨_, rfl⟩

lemma genSessions_length (S : Snapshot) (course : Course) (sec : CourseSection)
    (f : Nat → ℚ) (hf : ValidRand f) (hts : S.timeSlots ≠ [])
    (hF : eligibleFacultyList S course ≠ []) :
    ∀ sessions : List Session,
      (∀ sess ∈ sessions, eligibleRoomsList S course sess.stype sec ≠ []) →
      ∀ i, (genSessions S course sec f sessions i).1.length = sessions.length := by
  intro sessions
  induction sessions with
  | nil => intro _ i; rfl
  | cons sess rest ih =>
    intro hR i
    obtain ⟨g, hg⟩ := createRandomGene_isSome S course sec sess f i hf hts hF
      (hR sess (by simp))
    have hstep : (genSessions S course sec f (sess :: rest) i).1.length
        = (genSessions S course sec f rest
            (createRandomGene S course sec sess f i).2).1.length + 1 := by
      simp only [genSessions]
      rw [hg]
      rfl
    rw [hstep, ih (fun s hs => hR s (by simp [hs])) _]
    rfl

lemma genSections_length (S : Snapshot) (course : Course)
    (sessions : List Session) (f : Nat → ℚ) (hf : ValidRand f)
    (hts : S.timeSlots ≠ []) (hF : eligibleFacultyList S course ≠ []) :
    ∀ secs : List CourseSection,
      (∀ sec ∈ secs, ∀ sess ∈ sessions,
        eligibleRoomsList S course sess.stype sec ≠ []) →
      ∀ i, (genSections S course sessions f secs i).1.length
        = secs.length * sessions.length := by
  intro secs
  induction secs with
  | nil => intro _ i; simp [genSections]
  | cons sec rest ih =>
    intro hR i
    simp only [genSections, List.length_append]
    rw [genSessions_length S course sec f hf hts hF sessions
      (fun s hs => hR sec (by simp) s hs) i]
    rw [ih (fun s hs sess hsess => hR s (by simp [hs]) sess hsess) _]
    simp only [List.length_cons]
    ring

lemma genCourses_length (S : Snapshot) (f : Nat → ℚ) (hf : ValidRand f)
    (hts : S.timeSlots ≠ []) :
    ∀ courses : List Course,
      (∀ c ∈ courses, eligibleFacultyList S c ≠ []
        ∧ ∀ sec ∈ c.sections, ∀ sess ∈ getRequiredSessions c,
          eligibleRoomsList S c sess.stype sec ≠ []) →
      ∀ i, (genCourses S f courses i).1.length
        = (courses.map (fun c =>
            c.sections.length * (getRequiredSessions c).length)).sum := by
  intro courses
  induction courses with
  | nil => intro _ i; rfl
  | cons course rest ih =>
    intro hc i
    simp only [genCourses, List.length_append, List.map_cons, List.sum_cons]
    rw [genSections_length S course (getRequiredSessions course) f hf hts
      (hc course (by simp)).1 course.sections
      (fun sec hsec sess hsess => (hc course (by simp)).2 sec hsec sess hsess) i]
    rw [ih (fun c hcmem => hc c (by simp [hcmem])) _]

/-- The claim's session-count formula, stated independently of
`getRequiredSessions`: ⌈theory hours / theory duration⌉ plus
⌈lab hours / lab duration⌉, each term present only when the respective
weekly hours are positive. -/
def specSessionCount (c : Course) : Nat :=
  (if c.theoryHours.hoursPerWeek > 0 then
    (⌈c.theoryHours.hoursPerWeek / c.theoryHours.sessionDuration⌉).toNat
  else 0)
  + (if c.labHours.hoursPerWeek > 0 then
    (⌈c.labHours.hoursPerWeek / c.labHours.sessionDuration⌉).toNat
  else 0)

def sessionTotal (courses : List Course) : Nat :=
  (courses.map (fun c => c.sections.length * specSessionCount c)).sum

lemma getRequiredSessions_length (c : Course) :
    (getRequiredSessions c).length = specSessionCount c := by
  unfold getRequiredSessions specSessionCount
  split_ifs <;> simp

/-- C5 (amended).  On a snapshot whose time-slot grid is non-empty and in
which every session requirement has at least one active qualified faculty and
at least one suitable room, Random Construction emits exactly one gene per
requirement: the gene count equals the sum over (course, section) of the
session count ⌈theoryHours/theoryDuration⌉ + ⌈labHours/labDuration⌉ (terms
present only for positive weekly hours).  With an empty grid every
requirement's gene is dropped (the JS gene body throws on the undefined slot
and the catch returns null), so the unamended claim fails. -/
theorem c5_gene_count (S : Snapshot) (f : Nat → ℚ) (i : Nat)
    (hf : ValidRand f) (hts : S.timeSlots ≠ [])
    (hcand : ∀ c ∈ S.courses, eligibleFacultyList S c ≠ []
      ∧ ∀ sec ∈ c.sections, ∀ sess ∈ getRequiredSessions c,
        eligibleRoomsList S c sess.stype sec ≠ []) :
    (createRandomChromosome S f i).1.genes.length = sessionTotal S.courses := by
  have h : (createRandomChromosome S f i).1.genes = (genCourses S f S.courses i).1 := rfl
  rw [h, genCourses_length S f hf hts S.courses hcand i]
  unfold sessionTotal
  simp only [getRequiredSessions_length]

/-- C5 witness: on the concrete feasible snapshot the chromosome has exactly
`sessionTotal` genes. -/
theorem c5_gene_count_witness :
    (createRandomChromosome c9Snapshot (fun _ => 0) 0).1.genes.length
      = sessionTotal c9Snapshot.courses :=
  c5_gene_count c9Snapshot (fun _ => 0) 0
    (fun _ => ⟨le_refl 0, by norm_num⟩)
    (by with_unfolding_all decide)
    (by with_unfolding_all decide)

/-- A course needing one theory session, with a qualified faculty and a
suitable room but an empty time-slot grid. -/
def c5Course : Course :=
  ⟨1, "CS101", "Intro", [⟨"A", 30⟩], ⟨1, 1⟩, ⟨0, 1⟩, none, false, none⟩

def c5Snapshot : Snapshot := ⟨[c5Course], [c9Faculty], [c9Room], [], []⟩

/-- C5 counterexample: the candidate-set hypothesis of the claim holds (one
qualified active faculty, one suitable room), yet with an empty time-slot
grid Random Construction emits no gene while the required session total is 1. -/
theorem c5_counterexample :
    eligibleFacultyList c5Snapshot c5Course ≠ []
      ∧ (∀ sess ∈ getRequiredSessions c5Course,
          eligibleRoomsList c5Snapshot c5Course sess.stype ⟨"A", 30⟩ ≠ [])
      ∧ (createRandomChromosome c5Snapshot (fun _ => 0) 0).1.genes.length = 0
      ∧ sessionTotal c5Snapshot.courses = 1 := by
  refine ⟨?_, ?_, ?_, ?_⟩ <;> with_unfolding_all decide

/-! ## C7: requirements with empty candidate sets -/

/-- C7 (amended).  A session requirement whose active-qualified-faculty set or
suitable-room set is empty emits no gene — but the missing gene is not
surfaced: the fitness evaluator scores only the genes present, and a
chromosome with no genes evaluates to zero hard violations (nothing increments
the hard-violation count for missing genes). -/
theorem c7_missing_genes_not_counted :
    (∀ (S : Snapshot) (course : Course) (sec : CourseSection) (sess : Session)
        (f : Nat → ℚ) (i : Nat),
      (eligibleFacultyList S course = [] ∨ eligibleRoomsList S course sess.stype sec = []) →
        (createRandomGene S course sec sess f i).1 = none)
    ∧ (∀ (w : Weights) (c : Chromosome) (courses : List Course)
        (faculty : List Faculty) (rooms : List Room) (cons : List Constraint),
      c.genes = [] →
        (calculate w c courses faculty rooms cons).hardViolations = 0) := by
  constructor
  · intro S course sec sess f i h
    simp only [createRandomGene]
    rcases h with hF | hR
    · rw [if_pos (by simp [hF])]
    · by_cases hF : (eligibleFacultyList S course).isEmpty
      · rw [if_pos hF]
      · rw [if_neg hF, if_pos (by simp [hR])]
  · intro w c courses faculty rooms cons h
    simp only [calculate, h]
    rfl

def c7Snapshot : Snapshot :=
  ⟨[c5Course], [], [c9Room],
    [⟨"Monday", 1, "09:00", "10:00"⟩, ⟨"Monday", 2, "10:00", "11:00"⟩], []⟩

/-- C7 counterexample: with no qualified faculty for the single one-session
course, Random Construction emits no gene, and the evaluated chromosome has
zero hard violations — the hard-violation count is not incremented by the
number of missing genes (which is 1 here). -/
theorem c7_counterexample :
    (createRandomChromosome c7Snapshot (fun _ => 0) 0).1.genes = []
      ∧ sessionTotal c7Snapshot.courses = 1
      ∧ (calculate (mkWeights {})
          (createRandomChromosome c7Snapshot (fun _ => 0) 0).1
          c7Snapshot.courses c7Snapshot.faculty c7Snapshot.rooms
          c7Snapshot.constraints).hardViolations = 0 := by
  refine ⟨?_, ?_, ?_⟩ <;> with_unfolding_all decide

/-- C7 witness: the amended no-gene/no-count behaviour at concrete inputs. -/
theorem c7_missing_genes_not_counted_witness :
    (createRandomGene c7Snapshot c5Course ⟨"A", 30⟩ ⟨"theory", 1, 1⟩
        (fun _ => 0) 0).1 = none
      ∧ (calculate (mkWeights {}) defaultChromosome [] [] [] []).hardViolations = 0 :=
  ⟨c7_missing_genes_not_counted.1 c7Snapshot c5Course ⟨"A", 30⟩ ⟨"theory", 1, 1⟩
      (fun _ => 0) 0 (Or.inl (by with_unfolding_all decide)),
   c7_missing_genes_not_counted.2 (mkWeights {}) defaultChromosome [] [] [] [] rfl⟩

end Timetable
